import Mathlib

/-!
Verification development for the broosterWebParser repository (an HTML5
parser front-end written in Rust). We shallowly embed the tokenizer
(`src/dom/parser/tokenizer.rs`), the insertion-mode selector
(`src/dom/parser/insertion_mode.rs`) and the entity-table loader
(`src/dom/entities.rs`) as executable Lean definitions and prove theorems
about them.

Conventions of the embedding:
* Rust bytes (`u8`) and chars are modelled as `Nat` codepoints; Rust
  `String`s are `List Nat` of codepoints (`ch as char` on a byte is the
  identity on the codepoint, which this representation captures exactly).
* Mutable state becomes explicit state passing: every `handle_*_state`
  method of `Tokenizer` becomes a function `Tokenizer → Tokenizer`.
* Parse errors are printed to stderr in the source (`emit_parse_error`);
  we model that side band as an `errors : List String` field.
* The byte stream (`src/helper/stream.rs`) is not part of the sources;
  its operations are modelled from the spec (section 4.A): a zero-based
  cursor over a byte slice, `advance` saturating at the length,
  `reconsume` floored at 0, end-of-file when the cursor has passed the
  last byte, and literal prefix matching that advances only on success.
* The unbounded `loop`/`while` constructs of the source are embedded
  with explicit fuel; a run that does not terminate within its fuel
  yields `none`.
-/

namespace BroosterWebParser

/-- Codepoints of a Lean string literal, used to write byte/char lists
readably in statements. -/
def strBytes (s : String) : List Nat := s.toList.map Char.toNat

/-- ASCII lowercasing of a single codepoint (`to_ascii_lowercase`). -/
def asciiLower (c : Nat) : Nat := if 65 ≤ c ∧ c ≤ 90 then c + 32 else c

/-- Source `c.is_ascii_uppercase()` for a byte codepoint. -/
def isAsciiUpper (c : Nat) : Bool := 65 ≤ c ∧ c ≤ 90

/-- Source `c.is_ascii_lowercase()` for a byte codepoint. -/
def isAsciiLower (c : Nat) : Bool := 97 ≤ c ∧ c ≤ 122

/-- Source `c.is_ascii_alphabetic()` for a byte codepoint. -/
def isAsciiAlpha (c : Nat) : Bool := isAsciiUpper c || isAsciiLower c

/-- U+FFFD REPLACEMENT CHARACTER. -/
def replacementChar : Nat := 0xFFFD

/-! ## Byte stream (`src/helper/stream.rs`)

Modelled from the spec: the stream source file is not in the repository
snapshot; section 4.A of the spec defines the contract of `current`,
`advance`, `reconsume`, the literal-prefix match and the bounds-checked
slice, which the definitions below follow. -/

/-- Modelled from the spec: the byte stream `Stream<'a, u8>` of
`src/helper/stream.rs` (missing from the sources) — a borrowed byte
slice with a zero-based cursor (spec section 4.A). -/
structure ByteStream where
  input : List Nat
  idx : Nat
  deriving DecidableEq, Repr

namespace ByteStream

/-- Modelled from the spec: `Stream::new`. -/
def new (input : List Nat) : ByteStream := ⟨input, 0⟩

/-- Modelled from the spec: `current()` returns the current byte or
none at the end. `current_cpy` is the by-value variant the tokenizer
uses. -/
def current_cpy (s : ByteStream) : Option Nat := s.input.get? s.idx

/-- Modelled from the spec: `advance()` — cursor += 1, saturating at the
length. -/
def advance (s : ByteStream) : ByteStream :=
  { s with idx := min (s.idx + 1) s.input.length }

/-- Modelled from the spec: `is_eof()` — the cursor is at or past the
end. -/
def is_eof (s : ByteStream) : Bool := s.input.length ≤ s.idx

/-- Modelled from the spec: the bounds-checked slice of `len` bytes
starting at the cursor (`slice_from_idx`); clamped at the end rather
than faulting. -/
def slice_from_idx (s : ByteStream) (len : Nat) : List Nat :=
  (s.input.drop s.idx).take len

/-- Modelled from the spec: `expect_many_and_skip` — if the next bytes
equal `expect` (case-sensitively), advance past them and return true;
otherwise leave the cursor unchanged and return false. -/
def expect_many_and_skip (s : ByteStream) (expect : List Nat) :
    Bool × ByteStream :=
  if s.slice_from_idx expect.length = expect then
    (true, { s with idx := s.idx + expect.length })
  else
    (false, s)

end ByteStream

/-! ## Token model (`tokenizer.rs`, `enum Token`) -/

/-- Source `Token` from `tokenizer.rs`: the tagged token value. -/
inductive Token where
  | DOCTYPE (name public_id system_id : Option (List Nat))
      (force_quirks : Bool)
  | StartTag (tag_name : List Nat) (self_closing : Bool)
      (attributes : List (List Nat × List Nat))
  | EndTag (tag_name : List Nat) (self_closing : Bool)
      (attributes : List (List Nat × List Nat))
  | Comment (data : List Nat)
  | Character (data : Nat)
  | EOF
  deriving DecidableEq, Repr

namespace Token

/-- Source `Token::attribute_exists`: whether an attribute with the given name
is present (tag tokens only). -/
def attribute_exists (t : Token) (name : List Nat) : Bool :=
  match t with
  | .StartTag _ _ attributes | .EndTag _ _ attributes =>
      attributes.any (fun p => p.1 = name)
  | _ => false

/-- Source `Token::add_attribute`: push the pair onto a tag token's attribute
list unless the name already occurs; other token kinds are left
unchanged. -/
def add_attribute (t : Token) (name value : List Nat) : Token :=
  match t with
  | .StartTag n sc attributes =>
      if attributes.any (fun p => p.1 = name) then t
      else .StartTag n sc (attributes ++ [(name, value)])
  | .EndTag n sc attributes =>
      if attributes.any (fun p => p.1 = name) then t
      else .EndTag n sc (attributes ++ [(name, value)])
  | _ => t

/-- Source `Token::set_self_closing_flag`: set the flag on tag tokens; other
token kinds are left unchanged. -/
def set_self_closing_flag (t : Token) (flag : Bool) : Token :=
  match t with
  | .StartTag n _ attributes => .StartTag n flag attributes
  | .EndTag n _ attributes => .EndTag n flag attributes
  | _ => t

/-- Whether the token is a `StartTag` or an `EndTag`. -/
def isTag (t : Token) : Bool :=
  match t with
  | .StartTag _ _ _ | .EndTag _ _ _ => true
  | _ => false

end Token

/-! ## Insertion-mode selector (`insertion_mode.rs`) -/

/-- Source `InsertionMode` from `insertion_mode.rs`. -/
inductive InsertionMode where
  | Initial | BeforeHtml | BeforeHead | InHead | InHeadNoscript
  | AfterHead | InBody | Text | InTable | InTableText | InCaption
  | InColumnGroup | InTableBody | InRow | InCell | InSelect
  | InSelectInTable | InTemplate | AfterBody | InFrameset
  | AfterFrameset | AfterAfterBody | AfterAfterFrameset
  deriving DecidableEq, Repr

/-- The open-element-stack node of `insertion_mode.rs`. The source's
`Node` struct is a placeholder whose `NodeHelpers` predicates are left
to be implemented; following the spec (section 3), a node is modelled
by exactly the boolean element predicates the selector consults. -/
structure Node where
  is_select_element : Bool := false
  is_td : Bool := false
  is_th : Bool := false
  is_tr : Bool := false
  is_table_section : Bool := false
  is_caption : Bool := false
  is_colgroup : Bool := false
  is_table : Bool := false
  is_template : Bool := false
  is_head : Bool := false
  is_body : Bool := false
  is_frameset : Bool := false
  is_html : Bool := false
  has_no_head : Bool := false
  deriving DecidableEq, Repr

/-- A node for which every element predicate is false (no dispatch case
of the selector matches it). -/
def plainNode (n : Node) : Bool :=
  !n.is_select_element && !n.is_td && !n.is_th && !n.is_tr &&
  !n.is_table_section && !n.is_caption && !n.is_colgroup &&
  !n.is_table && !n.is_template && !n.is_head && !n.is_body &&
  !n.is_frameset && !n.is_html

/-- Source `plainNode` lifted to the optional context element. -/
def optPlain (ctx : Option Node) : Bool :=
  match ctx with
  | none => true
  | some c => plainNode c

/-- The inner ancestor loop of the select case (steps 4.2–4.7 in the
source): from the node at index `i`, walk toward the first node of the
stack; stop at the first node or at a template ancestor (`InSelect`),
or return `InSelectInTable` at a table ancestor. The source walks by
`get_previous_in_stack`, i.e. positionally. -/
def selectAncestorLoop (stack : List Node) : Nat → InsertionMode
  | 0 => .InSelect
  | i + 1 =>
      match stack.get? i with
      | none => .InSelect
      | some ancestor =>
          if ancestor.is_template then .InSelect
          else if ancestor.is_table then .InSelectInTable
          else selectAncestorLoop stack i

/-- The main loop of `InsertionMode::reset_insertion_mode`, walking the
stack from its last node down to its first. `i` is the index of the
node under examination; `last` is true exactly for the first node of
the stack (index 0), matching the source's comparison of the node with
`stack_of_open_elements.first()`. The unbounded `loop` is given
explicit fuel. -/
def resetLoop (stack : List Node) (context_element : Option Node)
    (is_fragment_case : Bool) : Nat → Nat → Option InsertionMode
  | 0, _ => none
  | fuel + 1, i =>
      let last := i = 0
      let node : Option Node :=
        if last ∧ is_fragment_case then context_element else stack.get? i
      match node with
      | some n =>
          if n.is_select_element then
            if last then some .InSelect
            else some (selectAncestorLoop stack i)
          else if n.is_td ∧ n.is_th ∧ ¬last then some .InCell
          else if n.is_tr then some .InRow
          else if n.is_table_section then some .InTableBody
          else if n.is_caption then some .InCaption
          else if n.is_colgroup then some .InColumnGroup
          else if n.is_table then some .InTable
          else if n.is_template then some .InTemplate
          else if n.is_head ∧ ¬last then some .InHead
          else if n.is_body then some .InBody
          else if n.is_frameset then some .InFrameset
          else if n.is_html then
            if is_fragment_case ∧ n.has_no_head then some .BeforeHead
            else some .AfterHead
          else if last then some .InBody
          else resetLoop stack context_element is_fragment_case fuel (i - 1)
      | none =>
          if last then some .InBody
          else resetLoop stack context_element is_fragment_case fuel (i - 1)

/-- Source `InsertionMode::reset_insertion_mode`: start at the last node of the
stack and walk down. The fuel `stack.length + 1` dominates the number
of iterations the walk can make. -/
def reset_insertion_mode (stack : List Node) (context_element : Option Node)
    (is_fragment_case : Bool) : Option InsertionMode :=
  resetLoop stack context_element is_fragment_case
    (stack.length + 1) (stack.length - 1)

/-! ## Tokenizer (`tokenizer.rs`) -/

/-- Source `TokenizerState` from `tokenizer.rs`. -/
inductive TokenizerState where
  | Data | RCDATA | RAWTEXT | ScriptData | PLAINTEXT
  | TagOpen | EndTagOpen | TagName
  | RCDATALessThanSign | RCDATAEndTagOpen | RCDATAEndTagName
  | RAWTEXTLessThanSign | RAWTEXTEndTagOpen | RAWTEXTEndTagName
  | ScriptDataLessThanSign | ScriptDataEndTagOpen | ScriptDataEndTagName
  | ScriptDataEscapeStart | ScriptDataEscapeStartDash | ScriptDataEscaped
  | ScriptDataEscapedDash | ScriptDataEscapedDashDash
  | ScriptDataEscapedLessThanSign | ScriptDataEscapedEndTagOpen
  | ScriptDataEscapedEndTagName | ScriptDataDoubleEscapeStart
  | ScriptDataDoubleEscaped | ScriptDataDoubleEscapedDash
  | ScriptDataDoubleEscapedDashDash | ScriptDataDoubleEscapedLessThanSign
  | ScriptDataDoubleEscapeEnd
  | BeforeAttributeName | AttributeName | AfterAttributeName
  | BeforeAttributeValue | AttributeValueDoubleQuoted
  | AttributeValueSingleQuoted | AttributeValueUnquoted
  | AfterAttributeValueQuoted | SelfClosingStartTag
  | BogusComment | MarkupDeclarationOpen
  | CommentStart | CommentStartDash | Comment | CommentLessThanSign
  | CommentLessThanSignBang | CommentLessThanSignBangDash
  | CommentLessThanSignBangDashDash | CommentEndDash | CommentEnd
  | CommentEndBang
  | DOCTYPE | BeforeDOCTYPEName | DOCTYPEName | AfterDOCTYPEName
  | AfterDOCTYPEPublicKeyword | BeforeDOCTYPEPublicIdentifier
  | DOCTYPEPublicIdentifierDoubleQuoted
  | DOCTYPEPublicIdentifierSingleQuoted
  | AfterDOCTYPEPublicIdentifier
  | BetweenDOCTYPEPublicAndSystemIdentifiers
  | AfterDOCTYPESystemKeyword | BeforeDOCTYPESystemIdentifier
  | DOCTYPESystemIdentifierDoubleQuoted
  | DOCTYPESystemIdentifierSingleQuoted
  | AfterDOCTYPESystemIdentifier | BogusDOCTYPE
  | CDATASection | CDATASectionBracket | CDATASectionEnd
  | CharacterReference | NamedCharacterReference | AmbiguousAmpersand
  | NumericCharacterReference | HexadecimalCharacterReferenceStart
  | DecimalCharacterReferenceStart | HexadecimalCharacterReference
  | DecimalCharacterReference | NumericCharacterReferenceEnd
  deriving DecidableEq, Repr

/-- Source `struct Tokenizer` from `tokenizer.rs`, with one extra field:
`errors` collects the strings the source writes to stderr
(`emit_parse_error` / the diagnostic `eprintln!` calls), which are
side-band output there. -/
structure Tokenizer where
  input_stream : ByteStream
  state : TokenizerState
  ret_state : TokenizerState
  current_tag_token : Option Token
  current_comment_token : Option Token
  current_doctype_token : Option Token
  tokens : List Token
  temporary_buffer : List Nat
  last_start_tag_token : Option Token
  current_tag_name : List Nat
  current_tag_value : List Nat
  errors : List String
  deriving DecidableEq, Repr

namespace Tokenizer

/-- Source `Tokenizer::new`. -/
def new (input : List Nat) : Tokenizer where
  input_stream := ByteStream.new input
  state := .Data
  ret_state := .Data
  current_tag_token := none
  current_comment_token := none
  current_doctype_token := none
  tokens := []
  temporary_buffer := []
  last_start_tag_token := none
  current_tag_name := []
  current_tag_value := []
  errors := []

/-- Source `Tokenizer::emit_parse_error`: record the side-band error string. -/
def emit_parse_error (st : Tokenizer) (err : String) : Tokenizer :=
  { st with errors := st.errors ++ [err] }

/-- Source `Tokenizer::emit_token`: remember a StartTag as the last start tag,
then push the token onto the output list. -/
def emit_token (st : Tokenizer) (token : Token) : Tokenizer :=
  let st :=
    match token with
    | .StartTag _ _ _ => { st with last_start_tag_token := some token }
    | _ => st
  { st with tokens := st.tokens ++ [token] }

/-- Source `Tokenizer::consume_next_input_char`: copy the current byte and
advance the stream. -/
def consume_next_input_char (st : Tokenizer) : Option Nat × Tokenizer :=
  (st.input_stream.current_cpy,
   { st with input_stream := st.input_stream.advance })

/-- Source `Tokenizer::reconsume_char`: move the cursor back one byte, floored
at 0 (the source clamps with `max(idx, 0)`). -/
def reconsume_char (st : Tokenizer) : Tokenizer :=
  { st with input_stream :=
      { st.input_stream with idx := st.input_stream.idx - 1 } }

/-- Source `Tokenizer::consume_if_expected`: case-sensitive matching delegates
to the stream; ASCII-case-insensitive matching compares the lowercased
expected bytes against the lowercased next bytes and advances only on a
match. -/
def consume_if_expected (st : Tokenizer) (expect : List Nat)
    (ascii_insensitive : Bool) : Bool × Tokenizer :=
  if !ascii_insensitive then
    let (r, s) := st.input_stream.expect_many_and_skip expect
    (r, { st with input_stream := s })
  else
    let strSlice := st.input_stream.slice_from_idx expect.length
    let result := expect.map asciiLower == strSlice.map asciiLower
    if result then
      (true, { st with input_stream :=
        { st.input_stream with idx := st.input_stream.idx + expect.length } })
    else
      (false, st)

/-- Source `Tokenizer::current_tag_attr_name_exist` (the boolean part; the
none-case diagnostic it prints is accounted for in
`add_attribute_to_current_tag_token`). -/
def current_tag_attr_name_exist (st : Tokenizer) : Bool :=
  match st.current_tag_token with
  | some t => t.attribute_exists st.current_tag_name
  | none => false

/-- Source `Tokenizer::add_attribute_to_current_tag_token`: on a duplicate
name emit the `attribute-name-existed` error and keep the scratch; on a
fresh name commit the scratch pair to the current tag token and clear
the scratch. With no current tag token the source prints the
`Token is None` diagnostic twice (once from
`current_tag_attr_name_exist`, once from the `else` branch). -/
def add_attribute_to_current_tag_token (st : Tokenizer) : Tokenizer :=
  match st.current_tag_token with
  | some t =>
      if t.attribute_exists st.current_tag_name then
        st.emit_parse_error "attribute-name-existed"
      else
        { st with
          current_tag_token :=
            some (t.add_attribute st.current_tag_name st.current_tag_value)
          current_tag_name := []
          current_tag_value := [] }
  | none =>
      ((st.emit_parse_error "Token is None; cannot add attribute.").emit_parse_error
        "Token is None; cannot add attribute.")

/-- Source `Tokenizer::emit_current_tag_token`: take the current tag token out
of its slot (leaving `none`) and emit it; with an empty slot the source
only prints a diagnostic. -/
def emit_current_tag_token (st : Tokenizer) : Tokenizer :=
  match st.current_tag_token with
  | some token => ({ st with current_tag_token := none }).emit_token token
  | none => st.emit_parse_error "No current tag token to emit."

/-- Source `Tokenizer::emit_current_comment_token`. -/
def emit_current_comment_token (st : Tokenizer) : Tokenizer :=
  match st.current_comment_token with
  | some token => ({ st with current_comment_token := none }).emit_token token
  | none => st.emit_parse_error "No current tag token to emit."

/-- Source `Tokenizer::emit_current_doctype_token`. -/
def emit_current_doctype_token (st : Tokenizer) : Tokenizer :=
  match st.current_doctype_token with
  | some token => ({ st with current_doctype_token := none }).emit_token token
  | none => st.emit_parse_error "No current tag token to emit."

/-- Source `Tokenizer::is_appropriate_end_tag_token`. -/
def is_appropriate_end_tag_token (st : Tokenizer) : Bool :=
  match st.current_tag_token, st.last_start_tag_token with
  | some (.EndTag end_tag_name _ _), some (.StartTag start_tag_name _ _) =>
      end_tag_name = start_tag_name
  | _, _ => false

/-- The source's repeated
`if let Some(Token::StartTag { tag_name, .. }) ... tag_name.push(c)`
pattern: append a codepoint to the current tag token's name when that
token is a StartTag, and do nothing otherwise. -/
def push_start_tag_name (st : Tokenizer) (c : Nat) : Tokenizer :=
  match st.current_tag_token with
  | some (.StartTag n sc a) =>
      { st with current_tag_token := some (.StartTag (n ++ [c]) sc a) }
  | _ => st

/-- The `if let Some(Token::EndTag { tag_name, .. })` pattern used by
the RCDATA/RAWTEXT/script end-tag-name states. -/
def push_end_tag_name (st : Tokenizer) (c : Nat) : Tokenizer :=
  match st.current_tag_token with
  | some (.EndTag n sc a) =>
      { st with current_tag_token := some (.EndTag (n ++ [c]) sc a) }
  | _ => st

/-- The `if let Some(Token::Comment { data, .. }) ... data.push(c)`
pattern: append codepoints to the current comment token's data. -/
def push_comment_data (st : Tokenizer) (cs : List Nat) : Tokenizer :=
  match st.current_comment_token with
  | some (.Comment d) =>
      { st with current_comment_token := some (.Comment (d ++ cs)) }
  | _ => st

/-- The `if let Some(Token::DOCTYPE { name, .. })
... name.as_mut().unwrap().push(c)` pattern (the source unwraps the
name; with no name present nothing observable is stored). -/
def push_doctype_name (st : Tokenizer) (c : Nat) : Tokenizer :=
  match st.current_doctype_token with
  | some (.DOCTYPE (some n) p s f) =>
      { st with current_doctype_token := some (.DOCTYPE (some (n ++ [c])) p s f) }
  | _ => st

/-- Set `force_quirks` on the current doctype token, when present. -/
def set_doctype_force_quirks (st : Tokenizer) : Tokenizer :=
  match st.current_doctype_token with
  | some (.DOCTYPE n p s _) =>
      { st with current_doctype_token := some (.DOCTYPE n p s true) }
  | _ => st

/-- Set the current doctype token's public identifier to the empty
string, when present (`*public_id = Some(String::new())`). -/
def set_doctype_public_id_empty (st : Tokenizer) : Tokenizer :=
  match st.current_doctype_token with
  | some (.DOCTYPE n _ s f) =>
      { st with current_doctype_token := some (.DOCTYPE n (some []) s f) }
  | _ => st

/-- Append a codepoint to the current doctype token's public
identifier (the source unwraps it). -/
def push_doctype_public_id (st : Tokenizer) (c : Nat) : Tokenizer :=
  match st.current_doctype_token with
  | some (.DOCTYPE n (some p) s f) =>
      { st with current_doctype_token := some (.DOCTYPE n (some (p ++ [c])) s f) }
  | _ => st

/-- Set the current doctype token's system identifier to the empty
string, when present (`*system_id = Some(String::new())`). -/
def set_doctype_system_id_empty (st : Tokenizer) : Tokenizer :=
  match st.current_doctype_token with
  | some (.DOCTYPE n p _ f) =>
      { st with current_doctype_token := some (.DOCTYPE n p (some []) f) }
  | _ => st

/-- Append a codepoint to the current doctype token's system
identifier (the source unwraps it). -/
def push_doctype_system_id (st : Tokenizer) (c : Nat) : Tokenizer :=
  match st.current_doctype_token with
  | some (.DOCTYPE n p (some s) f) =>
      { st with current_doctype_token := some (.DOCTYPE n p (some (s ++ [c])) f) }
  | _ => st

/-! ### State handlers

One function per `handle_*_state` method, in source order. Byte
literals: 9 TAB, 10 LF, 12 FF, 32 SPACE, 33 `!`, 34 `"`, 38 `&`,
39 `'`, 45 `-`, 47 `/`, 60 `<`, 61 `=`, 62 `>`, 63 `?`, 96 backtick. -/

/-- Source `handle_data_state` (a NUL in Data is emitted as-is after the
parse error). -/
def handle_data_state (st : Tokenizer) : Tokenizer :=
  let (next_char, st) := st.consume_next_input_char
  match next_char with
  | some 38 => { st with ret_state := .Data, state := .CharacterReference }
  | some 60 => { st with state := .TagOpen }
  | some 0 =>
      (st.emit_parse_error "unexpected-null-character").emit_token (.Character 0)
  | none => st.emit_token .EOF
  | some ch => st.emit_token (.Character ch)

/-- Source `handle_rcdata_state`. -/
def handle_rcdata_state (st : Tokenizer) : Tokenizer :=
  let (next_char, st) := st.consume_next_input_char
  match next_char with
  | some 38 => { st with ret_state := .RCDATA, state := .CharacterReference }
  | some 60 => { st with state := .RCDATALessThanSign }
  | some 0 =>
      (st.emit_parse_error "unexpected-null-character").emit_token
        (.Character replacementChar)
  | none => st.emit_token .EOF
  | some ch => st.emit_token (.Character ch)

/-- Source `handle_rawtext_state`. -/
def handle_rawtext_state (st : Tokenizer) : Tokenizer :=
  let (next_char, st) := st.consume_next_input_char
  match next_char with
  | some 60 => { st with state := .RAWTEXTLessThanSign }
  | some 0 =>
      (st.emit_parse_error "unexpected-null-character").emit_token
        (.Character replacementChar)
  | none => st.emit_token .EOF
  | some ch => st.emit_token (.Character ch)

/-- Source `handle_script_data_state`. -/
def handle_script_data_state (st : Tokenizer) : Tokenizer :=
  let (next_char, st) := st.consume_next_input_char
  match next_char with
  | some 60 => { st with state := .ScriptDataLessThanSign }
  | some 0 =>
      (st.emit_parse_error "unexpected-null-character").emit_token
        (.Character replacementChar)
  | none => st.emit_token .EOF
  | some ch => st.emit_token (.Character ch)

/-- Source `handle_plaintext_state`. -/
def handle_plaintext_state (st : Tokenizer) : Tokenizer :=
  let (next_char, st) := st.consume_next_input_char
  match next_char with
  | some 0 =>
      (st.emit_parse_error "unexpected-null-character").emit_token
        (.Character replacementChar)
  | none => st.emit_token .EOF
  | some ch => st.emit_token (.Character ch)

/-- Source `handle_tag_open_state` (note the source's leading space in the
`" eof-before-tag-name"` error string). -/
def handle_tag_open_state (st : Tokenizer) : Tokenizer :=
  let (next_char, st) := st.consume_next_input_char
  match next_char with
  | some 33 => { st with state := .MarkupDeclarationOpen }
  | some 47 => { st with state := .EndTagOpen }
  | none =>
      let st := st.emit_parse_error " eof-before-tag-name"
      (st.emit_token (.Character 60)).emit_token .EOF
  | some ch =>
      if isAsciiAlpha ch then
        let st := { st with
          current_tag_token := some (.StartTag [] false [])
          state := .TagName }
        st.reconsume_char
      else if ch = 63 then
        let st := st.emit_parse_error
          "unexpected-question-mark-instead-of-tag-name"
        let st := { st with
          current_comment_token := some (.Comment [])
          state := .BogusComment }
        st.reconsume_char
      else
        let st := st.emit_parse_error "invalid-first-character-of-tag-name"
        let st := st.emit_token (.Character 60)
        ({ st with state := .Data }).reconsume_char

/-- Source `handle_end_tag_open_state`. -/
def handle_end_tag_open_state (st : Tokenizer) : Tokenizer :=
  let (next_char, st) := st.consume_next_input_char
  match next_char with
  | some 62 =>
      let st := st.emit_parse_error "missing-end-tag-name"
      { st with state := .Data }
  | none =>
      let st := st.emit_parse_error "eof-before-tag-name"
      let st := st.emit_token (.Character 60)
      (st.emit_token (.Character 47)).emit_token .EOF
  | some ch =>
      if isAsciiAlpha ch then
        let st := { st with
          current_tag_token := some (.EndTag [] false [])
          state := .TagName }
        st.reconsume_char
      else
        let st := st.emit_parse_error "invalid-first-character-of-tag-name"
        let st := { st with
          current_comment_token := some (.Comment [])
          state := .BogusComment }
        st.reconsume_char

/-- Source `handle_tag_name_state`. Name characters are appended through the
StartTag-only `if let` of the source (`push_start_tag_name`): an EndTag
current token accumulates nothing here. -/
def handle_tag_name_state (st : Tokenizer) : Tokenizer :=
  let (next_char, st) := st.consume_next_input_char
  match next_char with
  | some 9 | some 10 | some 12 | some 32 =>
      { st with state := .BeforeAttributeName }
  | some 47 => { st with state := .SelfClosingStartTag }
  | some 62 =>
      let st := { st with state := .Data }
      match st.current_tag_token with
      | some token => st.emit_token token
      | none => st
  | some 0 =>
      (st.emit_parse_error "unexpected-null-character").push_start_tag_name
        replacementChar
  | none =>
      (st.emit_parse_error "Parse error: EOF in tag").emit_token .EOF
  | some ch =>
      if isAsciiUpper ch then st.push_start_tag_name (ch + 0x20)
      else st.push_start_tag_name ch

/-- Source `handle_rcdata_less_than_sign_state`. -/
def handle_rcdata_less_than_sign_state (st : Tokenizer) : Tokenizer :=
  let (next_char, st) := st.consume_next_input_char
  match next_char with
  | some 47 =>
      { st with temporary_buffer := [], state := .RCDATAEndTagOpen }
  | _ =>
      let st := st.emit_token (.Character 60)
      ({ st with state := .RCDATA }).reconsume_char

/-- Source `handle_rcdata_end_tag_open_state`. -/
def handle_rcdata_end_tag_open_state (st : Tokenizer) : Tokenizer :=
  let (next_char, st) := st.consume_next_input_char
  match next_char with
  | some ch =>
      if isAsciiAlpha ch then
        let st := { st with
          current_tag_token := some (.EndTag [] false [])
          state := .RCDATAEndTagName }
        st.reconsume_char
      else
        let st := (st.emit_token (.Character 60)).emit_token (.Character 47)
        ({ st with state := .RCDATA }).reconsume_char
  | none =>
      let st := (st.emit_token (.Character 60)).emit_token (.Character 47)
      ({ st with state := .RCDATA }).reconsume_char

/-- Source `handle_rcdata_end_tag_name_state_anything_else`: emit `<`, `/` and
the temporary buffer as characters, clear the buffer, return to RCDATA
reconsuming. -/
def handle_rcdata_end_tag_name_state_anything_else (st : Tokenizer) :
    Tokenizer :=
  let st := (st.emit_token (.Character 60)).emit_token (.Character 47)
  let st := st.temporary_buffer.foldl (fun s c => s.emit_token (.Character c)) st
  let st := { st with temporary_buffer := [], state := .RCDATA }
  st.reconsume_char

/-- Source `handle_rcdata_end_tag_name_state`. -/
def handle_rcdata_end_tag_name_state (st : Tokenizer) : Tokenizer :=
  let (next_char, st) := st.consume_next_input_char
  match next_char with
  | some 9 | some 10 | some 12 | some 32 =>
      if st.is_appropriate_end_tag_token then
        { st with state := .BeforeAttributeName }
      else st.handle_rcdata_end_tag_name_state_anything_else
  | some 47 =>
      if st.is_appropriate_end_tag_token then
        { st with state := .SelfClosingStartTag }
      else st.handle_rcdata_end_tag_name_state_anything_else
  | some 62 =>
      if st.is_appropriate_end_tag_token then
        let st := { st with state := .Data }
        match st.current_tag_token with
        | some token => st.emit_token token
        | none => st
      else st.handle_rcdata_end_tag_name_state_anything_else
  | some ch =>
      if isAsciiUpper ch then
        let st := st.push_end_tag_name (ch + 0x20)
        { st with temporary_buffer := st.temporary_buffer ++ [ch] }
      else if isAsciiLower ch then
        let st := st.push_end_tag_name ch
        { st with temporary_buffer := st.temporary_buffer ++ [ch] }
      else st.handle_rcdata_end_tag_name_state_anything_else
  | none => st.handle_rcdata_end_tag_name_state_anything_else

/-- Source `handle_rawtext_less_than_sign_state`. -/
def handle_rawtext_less_than_sign_state (st : Tokenizer) : Tokenizer :=
  let (next_char, st) := st.consume_next_input_char
  match next_char with
  | some 47 =>
      { st with temporary_buffer := [], state := .RAWTEXTEndTagOpen }
  | _ =>
      let st := st.emit_token (.Character 60)
      ({ st with state := .RAWTEXT }).reconsume_char

/-- Source `handle_rawtext_end_tag_open_state`. -/
def handle_rawtext_end_tag_open_state (st : Tokenizer) : Tokenizer :=
  let (next_char, st) := st.consume_next_input_char
  match next_char with
  | some ch =>
      if isAsciiAlpha ch then
        let st := { st with
          current_tag_token := some (.EndTag [] false [])
          state := .RAWTEXTEndTagName }
        st.reconsume_char
      else
        let st := (st.emit_token (.Character 60)).emit_token (.Character 47)
        ({ st with state := .RAWTEXT }).reconsume_char
  | none =>
      let st := (st.emit_token (.Character 60)).emit_token (.Character 47)
      ({ st with state := .RAWTEXT }).reconsume_char

/-- Source `handle_rawtext_end_tag_name_state_anything_else`. -/
def handle_rawtext_end_tag_name_state_anything_else (st : Tokenizer) :
    Tokenizer :=
  let st := (st.emit_token (.Character 60)).emit_token (.Character 47)
  let st := st.temporary_buffer.foldl (fun s c => s.emit_token (.Character c)) st
  let st := { st with temporary_buffer := [], state := .RAWTEXT }
  st.reconsume_char

/-- Source `handle_rawtext_end_tag_name_state`. -/
def handle_rawtext_end_tag_name_state (st : Tokenizer) : Tokenizer :=
  let (next_char, st) := st.consume_next_input_char
  match next_char with
  | some 9 | some 10 | some 12 | some 32 =>
      if st.is_appropriate_end_tag_token then
        { st with state := .BeforeAttributeName }
      else st.handle_rawtext_end_tag_name_state_anything_else
  | some 47 =>
      if st.is_appropriate_end_tag_token then
        { st with state := .SelfClosingStartTag }
      else st.handle_rawtext_end_tag_name_state_anything_else
  | some 62 =>
      if st.is_appropriate_end_tag_token then
        let st := { st with state := .Data }
        match st.current_tag_token with
        | some token => st.emit_token token
        | none => st
      else st.handle_rawtext_end_tag_name_state_anything_else
  | some ch =>
      if isAsciiUpper ch then
        let st := st.push_end_tag_name (ch + 0x20)
        { st with temporary_buffer := st.temporary_buffer ++ [ch] }
      else if isAsciiLower ch then
        let st := st.push_end_tag_name ch
        { st with temporary_buffer := st.temporary_buffer ++ [ch] }
      else st.handle_rawtext_end_tag_name_state_anything_else
  | none => st.handle_rawtext_end_tag_name_state_anything_else

/-- Source `handle_script_data_less_than_sign_state` (the fallthrough arm
reconsumes without changing state). -/
def handle_script_data_less_than_sign_state (st : Tokenizer) : Tokenizer :=
  let (next_char, st) := st.consume_next_input_char
  match next_char with
  | some 47 =>
      { st with temporary_buffer := [], state := .ScriptDataEndTagOpen }
  | some 33 =>
      let st := { st with state := .ScriptDataEscapeStart }
      (st.emit_token (.Character 60)).emit_token (.Character 33)
  | _ =>
      (st.emit_token (.Character 60)).reconsume_char

/-- Source `handle_script_data_end_tag_open_state`. -/
def handle_script_data_end_tag_open_state (st : Tokenizer) : Tokenizer :=
  let (next_char, st) := st.consume_next_input_char
  match next_char with
  | some ch =>
      if isAsciiAlpha ch then
        let st := { st with
          current_tag_token := some (.EndTag [] false [])
          state := .ScriptDataEndTagName }
        st.reconsume_char
      else
        let st := (st.emit_token (.Character 60)).emit_token (.Character 47)
        ({ st with state := .ScriptData }).reconsume_char
  | none =>
      let st := (st.emit_token (.Character 60)).emit_token (.Character 47)
      ({ st with state := .ScriptData }).reconsume_char

/-- Source `handle_script_end_tag_name_state_anything_else`. -/
def handle_script_end_tag_name_state_anything_else (st : Tokenizer) :
    Tokenizer :=
  let st := (st.emit_token (.Character 60)).emit_token (.Character 47)
  let st := st.temporary_buffer.foldl (fun s c => s.emit_token (.Character c)) st
  let st := { st with temporary_buffer := [], state := .ScriptData }
  st.reconsume_char

/-- Source `handle_script_data_end_tag_name_state`. -/
def handle_script_data_end_tag_name_state (st : Tokenizer) : Tokenizer :=
  let (next_char, st) := st.consume_next_input_char
  match next_char with
  | some 9 | some 10 | some 12 | some 32 =>
      if st.is_appropriate_end_tag_token then
        { st with state := .BeforeAttributeName }
      else st.handle_script_end_tag_name_state_anything_else
  | some 47 =>
      if st.is_appropriate_end_tag_token then
        { st with state := .SelfClosingStartTag }
      else st.handle_script_end_tag_name_state_anything_else
  | some 62 =>
      if st.is_appropriate_end_tag_token then
        let st := { st with state := .Data }
        match st.current_tag_token with
        | some token => st.emit_token token
        | none => st
      else st.handle_script_end_tag_name_state_anything_else
  | some ch =>
      if isAsciiUpper ch then
        let st := st.push_end_tag_name (ch + 0x20)
        { st with temporary_buffer := st.temporary_buffer ++ [ch] }
      else if isAsciiLower ch then
        let st := st.push_end_tag_name ch
        { st with temporary_buffer := st.temporary_buffer ++ [ch] }
      else st.handle_script_end_tag_name_state_anything_else
  | none => st.handle_script_end_tag_name_state_anything_else

/-- Source `handle_script_data_escape_start_state`. -/
def handle_script_data_escape_start_state (st : Tokenizer) : Tokenizer :=
  let (next_char, st) := st.consume_next_input_char
  match next_char with
  | some 45 =>
      ({ st with state := .ScriptDataEscapeStartDash }).emit_token
        (.Character 45)
  | _ =>
      ({ st with state := .ScriptData }).reconsume_char

/-- Source `handle_script_data_escape_start_dash_state`. -/
def handle_script_data_escape_start_dash_state (st : Tokenizer) : Tokenizer :=
  let (next_char, st) := st.consume_next_input_char
  match next_char with
  | some 45 =>
      ({ st with state := .ScriptDataEscapedDashDash }).emit_token
        (.Character 45)
  | _ =>
      ({ st with state := .ScriptData }).reconsume_char

/-- Source `handle_script_data_escaped_state`. -/
def handle_script_data_escaped_state (st : Tokenizer) : Tokenizer :=
  let (next_char, st) := st.consume_next_input_char
  match next_char with
  | some 45 =>
      ({ st with state := .ScriptDataEscapedDash }).emit_token (.Character 45)
  | some 60 => { st with state := .ScriptDataEscapedLessThanSign }
  | some 0 =>
      (st.emit_parse_error "unexpected-null-character").emit_token
        (.Character replacementChar)
  | none =>
      (st.emit_parse_error "eof-in-script-html-comment-like-text").emit_token
        .EOF
  | some ch => st.emit_token (.Character ch)

/-- Source `handle_script_data_escaped_dash_state`. -/
def handle_script_data_escaped_dash_state (st : Tokenizer) : Tokenizer :=
  let (next_char, st) := st.consume_next_input_char
  match next_char with
  | some 45 =>
      ({ st with state := .ScriptDataEscapedDashDash }).emit_token
        (.Character 45)
  | some 60 => { st with state := .ScriptDataEscapedLessThanSign }
  | some 0 =>
      let st := st.emit_parse_error "unexpected-null-character"
      ({ st with state := .ScriptDataEscaped }).emit_token
        (.Character replacementChar)
  | none =>
      (st.emit_parse_error "eof-in-script-html-comment-like-text").emit_token
        .EOF
  | some ch =>
      ({ st with state := .ScriptDataEscaped }).emit_token (.Character ch)

/-- Source `handle_script_data_escaped_dash_dash_state`. -/
def handle_script_data_escaped_dash_dash_state (st : Tokenizer) : Tokenizer :=
  let (next_char, st) := st.consume_next_input_char
  match next_char with
  | some 45 => st.emit_token (.Character 45)
  | some 60 => { st with state := .ScriptDataEscapedLessThanSign }
  | some 62 =>
      ({ st with state := .ScriptData }).emit_token (.Character 62)
  | some 0 =>
      let st := st.emit_parse_error "unexpected-null-character"
      ({ st with state := .ScriptDataEscaped }).emit_token
        (.Character replacementChar)
  | none =>
      (st.emit_parse_error "eof-in-script-html-comment-like-text").emit_token
        .EOF
  | some ch =>
      ({ st with state := .ScriptDataEscaped }).emit_token (.Character ch)

/-- Source `handle_script_data_escaped_less_than_sign_state`. -/
def handle_script_data_escaped_less_than_sign_state (st : Tokenizer) :
    Tokenizer :=
  let (next_char, st) := st.consume_next_input_char
  match next_char with
  | some 47 =>
      { st with temporary_buffer := [], state := .ScriptDataEscapedEndTagOpen }
  | some ch =>
      if isAsciiAlpha ch then
        let st := { st with temporary_buffer := [] }
        let st := st.emit_token (.Character 60)
        ({ st with state := .ScriptDataDoubleEscapeStart }).reconsume_char
      else
        let st := st.emit_token (.Character 60)
        ({ st with state := .ScriptDataEscaped }).reconsume_char
  | none =>
      let st := st.emit_token (.Character 60)
      ({ st with state := .ScriptDataEscaped }).reconsume_char

/-- Source `handle_script_data_escaped_end_tag_open_state`. -/
def handle_script_data_escaped_end_tag_open_state (st : Tokenizer) :
    Tokenizer :=
  let (next_char, st) := st.consume_next_input_char
  match next_char with
  | some ch =>
      if isAsciiAlpha ch then
        let st := { st with
          current_tag_token := some (.EndTag [] false [])
          state := .ScriptDataEscapedEndTagName }
        st.reconsume_char
      else
        let st := (st.emit_token (.Character 60)).emit_token (.Character 47)
        ({ st with state := .ScriptDataEscaped }).reconsume_char
  | none =>
      let st := (st.emit_token (.Character 60)).emit_token (.Character 47)
      ({ st with state := .ScriptDataEscaped }).reconsume_char

/-- Source `handle_script_data_escaped_end_tag_name_state_anything_else`. -/
def handle_script_data_escaped_end_tag_name_state_anything_else
    (st : Tokenizer) : Tokenizer :=
  let st := (st.emit_token (.Character 60)).emit_token (.Character 47)
  let st := st.temporary_buffer.foldl (fun s c => s.emit_token (.Character c)) st
  let st := { st with temporary_buffer := [], state := .ScriptDataEscaped }
  st.reconsume_char

/-- Source `handle_script_data_escaped_end_tag_name_state`. -/
def handle_script_data_escaped_end_tag_name_state (st : Tokenizer) :
    Tokenizer :=
  let (next_char, st) := st.consume_next_input_char
  match next_char with
  | some 9 | some 10 | some 12 | some 32 =>
      if st.is_appropriate_end_tag_token then
        { st with state := .BeforeAttributeName }
      else st.handle_script_data_escaped_end_tag_name_state_anything_else
  | some 47 =>
      if st.is_appropriate_end_tag_token then
        { st with state := .SelfClosingStartTag }
      else st.handle_script_data_escaped_end_tag_name_state_anything_else
  | some 62 =>
      if st.is_appropriate_end_tag_token then
        let st := { st with state := .Data }
        match st.current_tag_token with
        | some token => st.emit_token token
        | none => st
      else st.handle_script_data_escaped_end_tag_name_state_anything_else
  | some ch =>
      if isAsciiUpper ch then
        let st := st.push_end_tag_name (ch + 0x20)
        { st with temporary_buffer := st.temporary_buffer ++ [ch] }
      else if isAsciiLower ch then
        let st := st.push_end_tag_name ch
        { st with temporary_buffer := st.temporary_buffer ++ [ch] }
      else st.handle_script_data_escaped_end_tag_name_state_anything_else
  | none => st.handle_script_data_escaped_end_tag_name_state_anything_else

/-- Source `handle_script_data_double_escape_start_state`. -/
def handle_script_data_double_escape_start_state (st : Tokenizer) :
    Tokenizer :=
  let (next_char, st) := st.consume_next_input_char
  match next_char with
  | some 9 | some 10 | some 12 | some 32 | some 47 | some 62 =>
      let st :=
        if st.temporary_buffer = strBytes "script" then
          { st with state := .ScriptDataDoubleEscaped }
        else
          { st with state := .ScriptDataEscaped }
      st.emit_token (.Character next_char.get!)
  | some ch =>
      if isAsciiUpper ch then
        ({ st with temporary_buffer :=
            st.temporary_buffer ++ [ch + 0x20] }).emit_token (.Character ch)
      else if isAsciiLower ch then
        ({ st with temporary_buffer :=
            st.temporary_buffer ++ [ch] }).emit_token (.Character ch)
      else
        ({ st with state := .ScriptDataEscaped }).reconsume_char
  | none =>
      ({ st with state := .ScriptDataEscaped }).reconsume_char

/-- Source `handle_script_data_double_escaped_state`. -/
def handle_script_data_double_escaped_state (st : Tokenizer) : Tokenizer :=
  let (next_char, st) := st.consume_next_input_char
  match next_char with
  | some 45 =>
      ({ st with state := .ScriptDataDoubleEscapedDash }).emit_token
        (.Character 45)
  | some 60 =>
      ({ st with state := .ScriptDataDoubleEscapedLessThanSign }).emit_token
        (.Character 60)
  | some 0 =>
      (st.emit_parse_error "unexpected-null-character").emit_token
        (.Character replacementChar)
  | none =>
      (st.emit_parse_error "eof-in-script-html-comment-like-text").emit_token
        .EOF
  | some ch => st.emit_token (.Character ch)

/-- Source `handle_script_data_double_escaped_dash_state`. -/
def handle_script_data_double_escaped_dash_state (st : Tokenizer) :
    Tokenizer :=
  let (next_char, st) := st.consume_next_input_char
  match next_char with
  | some 45 =>
      ({ st with state := .ScriptDataDoubleEscapedDashDash }).emit_token
        (.Character 45)
  | some 60 =>
      ({ st with state := .ScriptDataDoubleEscapedLessThanSign }).emit_token
        (.Character 60)
  | some 0 =>
      let st := st.emit_parse_error "unexpected-null-character"
      ({ st with state := .ScriptDataDoubleEscaped }).emit_token
        (.Character replacementChar)
  | none =>
      (st.emit_parse_error "eof-in-script-html-comment-like-text").emit_token
        .EOF
  | some ch =>
      ({ st with state := .ScriptDataDoubleEscaped }).emit_token (.Character ch)

/-- Source `handle_script_data_double_escaped_dash_dash_state`. -/
def handle_script_data_double_escaped_dash_dash_state (st : Tokenizer) :
    Tokenizer :=
  let (next_char, st) := st.consume_next_input_char
  match next_char with
  | some 45 => st.emit_token (.Character 45)
  | some 60 =>
      ({ st with state := .ScriptDataDoubleEscapedLessThanSign }).emit_token
        (.Character 60)
  | some 62 =>
      ({ st with state := .ScriptData }).emit_token (.Character 62)
  | some 0 =>
      let st := st.emit_parse_error "unexpected-null-character"
      ({ st with state := .ScriptDataDoubleEscaped }).emit_token
        (.Character replacementChar)
  | none =>
      (st.emit_parse_error "eof-in-script-html-comment-like-text").emit_token
        .EOF
  | some ch =>
      ({ st with state := .ScriptDataDoubleEscaped }).emit_token (.Character ch)

/-- Source `handle_script_data_double_escaped_less_than_sign_state`. -/
def handle_script_data_double_escaped_less_than_sign_state (st : Tokenizer) :
    Tokenizer :=
  let (next_char, st) := st.consume_next_input_char
  match next_char with
  | some 47 =>
      ({ st with temporary_buffer := [], state := .ScriptDataDoubleEscapeEnd }).emit_token
        (.Character 47)
  | _ =>
      ({ st with state := .ScriptDataDoubleEscaped }).reconsume_char

/-- Source `handle_script_data_double_escape_end_state`. -/
def handle_script_data_double_escape_end_state (st : Tokenizer) : Tokenizer :=
  let (next_char, st) := st.consume_next_input_char
  match next_char with
  | some 9 | some 10 | some 12 | some 32 | some 47 | some 62 =>
      let st :=
        if st.temporary_buffer = strBytes "script" then
          { st with state := .ScriptDataEscaped }
        else
          { st with state := .ScriptDataDoubleEscaped }
      st.emit_token (.Character next_char.get!)
  | some ch =>
      if isAsciiUpper ch then
        ({ st with temporary_buffer :=
            st.temporary_buffer ++ [ch + 0x20] }).emit_token (.Character ch)
      else if isAsciiLower ch then
        ({ st with temporary_buffer :=
            st.temporary_buffer ++ [ch] }).emit_token (.Character ch)
      else
        ({ st with state := .ScriptDataDoubleEscaped }).reconsume_char
  | none =>
      ({ st with state := .ScriptDataDoubleEscaped }).reconsume_char

/-- Source `handle_before_attribute_name_state`. Note the source's `=` arm
binds an unused local `name = "="` (the scratch name is not set) and
clears only the scratch value. -/
def handle_before_attribute_name_state (st : Tokenizer) : Tokenizer :=
  let (next_char, st) := st.consume_next_input_char
  match next_char with
  | some 9 | some 10 | some 12 | some 32 => st
  | some 47 | some 62 | none =>
      ({ st with state := .AfterAttributeName }).reconsume_char
  | some 61 =>
      let st := st.emit_parse_error
        "unexpected-equals-sign-before-attribute-name"
      { st with current_tag_value := [], state := .AttributeName }
  | some _ =>
      let st := { st with current_tag_name := [], current_tag_value := []
                          state := .AttributeName }
      st.reconsume_char

/-- Source `handle_attribute_name_state`: accumulate into the scratch
`current_tag_name`. -/
def handle_attribute_name_state (st : Tokenizer) : Tokenizer :=
  let (next_char, st) := st.consume_next_input_char
  match next_char with
  | some 9 | some 10 | some 12 | some 32 | some 47 | some 62 | none =>
      ({ st with state := .AfterAttributeName }).reconsume_char
  | some 61 => { st with state := .BeforeAttributeValue }
  | some 0 =>
      let st := st.emit_parse_error "unexpected-null-character"
      { st with current_tag_name := st.current_tag_name ++ [replacementChar] }
  | some 34 | some 39 | some 60 =>
      let st := st.emit_parse_error "unexpected-character-in-attribute-name"
      { st with current_tag_name := st.current_tag_name ++ [next_char.get!] }
  | some c =>
      if isAsciiUpper c then
        { st with current_tag_name := st.current_tag_name ++ [c + 0x20] }
      else
        { st with current_tag_name := st.current_tag_name ++ [c] }

/-- Source `handle_after_attribute_name_state`: the arms other than
whitespace and `=` first try to commit the scratch pair via
`add_attribute_to_current_tag_token`. -/
def handle_after_attribute_name_state (st : Tokenizer) : Tokenizer :=
  let (next_char, st) := st.consume_next_input_char
  match next_char with
  | some 9 | some 10 | some 12 | some 32 => st
  | some 47 =>
      { st.add_attribute_to_current_tag_token with
        state := .SelfClosingStartTag }
  | some 61 => { st with state := .BeforeAttributeValue }
  | some 62 =>
      let st := st.add_attribute_to_current_tag_token
      ({ st with state := .Data }).emit_current_tag_token
  | none =>
      let st := st.add_attribute_to_current_tag_token
      (st.emit_parse_error "eof-in-tag").emit_token .EOF
  | some _ =>
      let st := st.add_attribute_to_current_tag_token
      ({ st with state := .AttributeName }).reconsume_char

/-- Source `handle_before_attribute_value_state` (the EOF arm does nothing in
the source). -/
def handle_before_attribute_value_state (st : Tokenizer) : Tokenizer :=
  let (next_char, st) := st.consume_next_input_char
  match next_char with
  | some 9 | some 10 | some 12 | some 32 => st
  | some 34 => { st with state := .AttributeValueDoubleQuoted }
  | some 39 => { st with state := .AttributeValueSingleQuoted }
  | some 62 =>
      let st := st.emit_parse_error "missing-attribute-value"
      ({ st with state := .Data }).emit_current_tag_token
  | some _ =>
      ({ st with state := .AttributeValueUnquoted }).reconsume_char
  | none => st

/-- Source `handle_attribute_value_double_quoted_state`. -/
def handle_attribute_value_double_quoted_state (st : Tokenizer) : Tokenizer :=
  let (next_char, st) := st.consume_next_input_char
  match next_char with
  | some 34 => { st with state := .AfterAttributeValueQuoted }
  | some 38 =>
      { st with ret_state := .AttributeValueDoubleQuoted
                state := .CharacterReference }
  | some 0 =>
      let st := st.emit_parse_error "unexpected-null-character"
      { st with current_tag_value := st.current_tag_value ++ [replacementChar] }
  | some c =>
      { st with current_tag_value := st.current_tag_value ++ [c] }
  | none =>
      (st.emit_parse_error "eof-in-tag").emit_token .EOF

/-- Source `handle_attribute_value_single_quoted_state`. -/
def handle_attribute_value_single_quoted_state (st : Tokenizer) : Tokenizer :=
  let (next_char, st) := st.consume_next_input_char
  match next_char with
  | some 39 => { st with state := .AfterAttributeValueQuoted }
  | some 38 =>
      { st with ret_state := .AttributeValueSingleQuoted
                state := .CharacterReference }
  | some 0 =>
      let st := st.emit_parse_error "unexpected-null-character"
      { st with current_tag_value := st.current_tag_value ++ [replacementChar] }
  | some c =>
      { st with current_tag_value := st.current_tag_value ++ [c] }
  | none =>
      (st.emit_parse_error "eof-in-tag").emit_token .EOF

/-- Source `handle_attribute_value_unquoted_state`. -/
def handle_attribute_value_unquoted_state (st : Tokenizer) : Tokenizer :=
  let (next_char, st) := st.consume_next_input_char
  match next_char with
  | some 9 | some 10 | some 12 | some 32 =>
      { st with state := .BeforeAttributeName }
  | some 38 =>
      { st with ret_state := .AttributeValueUnquoted
                state := .CharacterReference }
  | some 62 =>
      ({ st with state := .Data }).emit_current_tag_token
  | some 0 =>
      let st := st.emit_parse_error "unexpected-null-character"
      { st with current_tag_value := st.current_tag_value ++ [replacementChar] }
  | some 34 | some 39 | some 60 | some 61 | some 96 =>
      let st := st.emit_parse_error
        "unexpected-character-in-unquoted-attribute-value"
      { st with current_tag_value := st.current_tag_value ++ [next_char.get!] }
  | some c =>
      { st with current_tag_value := st.current_tag_value ++ [c] }
  | none =>
      (st.emit_parse_error "eof-in-tag").emit_token .EOF

/-- Source `handle_after_attribute_value_quoted_state`. -/
def handle_after_attribute_value_quoted_state (st : Tokenizer) : Tokenizer :=
  let (next_char, st) := st.consume_next_input_char
  match next_char with
  | some 9 | some 10 | some 12 | some 32 =>
      { st with state := .BeforeAttributeName }
  | some 47 => { st with state := .SelfClosingStartTag }
  | some 62 =>
      ({ st with state := .Data }).emit_current_tag_token
  | some _ =>
      let st := st.emit_parse_error "missing-whitespace-between-attributes"
      ({ st with state := .BeforeAttributeName }).reconsume_char
  | none =>
      (st.emit_parse_error "eof-in-tag").emit_token .EOF

/-- Source `handle_self_closing_start_tag_state`. -/
def handle_self_closing_start_tag_state (st : Tokenizer) : Tokenizer :=
  let (next_char, st) := st.consume_next_input_char
  match next_char with
  | some 62 =>
      let st :=
        match st.current_tag_token with
        | some token =>
            { st with current_tag_token := some (token.set_self_closing_flag true) }
        | none => st
      ({ st with state := .Data }).emit_current_tag_token
  | some _ =>
      let st := st.emit_parse_error "unexpected-solidus-in-tag"
      ({ st with state := .BeforeAttributeName }).reconsume_char
  | none =>
      (st.emit_parse_error "eof-in-tag").emit_token .EOF

/-- Source `handle_bogus_comment_state`. -/
def handle_bogus_comment_state (st : Tokenizer) : Tokenizer :=
  let (next_char, st) := st.consume_next_input_char
  match next_char with
  | some 62 =>
      ({ st with state := .Data }).emit_current_comment_token
  | some 0 =>
      (st.emit_parse_error "unexpected-null-character").push_comment_data
        [replacementChar]
  | some c => st.push_comment_data [c]
  | none =>
      st.emit_current_comment_token.emit_token .EOF

/-- Source `handle_markup_declaration_open_state`: try `--`, then `DOCTYPE`
(ASCII case-insensitively; on a match one further char is consumed),
then `[CDATA[` — whose foreign-content check is the hard-coded
`if true` of the source, so it always takes the
`cdata-in-html-content` bogus-comment branch — and otherwise open an
(incorrectly-opened) bogus comment. -/
def handle_markup_declaration_open_state (st : Tokenizer) : Tokenizer :=
  let (m, st) := st.consume_if_expected (strBytes "--") false
  if m then
    { st with current_comment_token := some (.Comment [])
              state := .CommentStart }
  else
    let (m, st) := st.consume_if_expected (strBytes "DOCTYPE") true
    if m then
      let (_, st) := st.consume_next_input_char
      { st with state := .DOCTYPE }
    else
      let (m, st) := st.consume_if_expected (strBytes "[CDATA[") false
      if m then
        let st := st.emit_parse_error "cdata-in-html-content"
        { st with current_comment_token := some (.Comment (strBytes "[CDATA["))
                  state := .BogusComment }
      else
        let st := st.emit_parse_error "incorrectly-opened-comment"
        { st with current_comment_token := some (.Comment [])
                  state := .BogusComment }

/-- Source `handle_comment_start_state` (the fallthrough arm covers EOF as
well and reconsumes into Comment). -/
def handle_comment_start_state (st : Tokenizer) : Tokenizer :=
  let (next_char, st) := st.consume_next_input_char
  match next_char with
  | some 45 => { st with state := .CommentStartDash }
  | some 62 =>
      let st := st.emit_parse_error "abrupt-closing-of-empty-comment"
      ({ st with state := .Data }).emit_current_comment_token
  | _ =>
      ({ st with state := .Comment }).reconsume_char

/-- Source `handle_comment_start_dash_state`. -/
def handle_comment_start_dash_state (st : Tokenizer) : Tokenizer :=
  let (next_char, st) := st.consume_next_input_char
  match next_char with
  | some 45 => { st with state := .CommentEnd }
  | some 62 =>
      let st := st.emit_parse_error "abrupt-closing-of-empty-comment"
      ({ st with state := .Data }).emit_current_comment_token
  | some _ =>
      let st := st.push_comment_data [45]
      ({ st with state := .Comment }).reconsume_char
  | none =>
      let st := st.emit_parse_error "eof-in-comment"
      st.emit_current_comment_token.emit_token .EOF

/-- Source `handle_comment_state`. -/
def handle_comment_state (st : Tokenizer) : Tokenizer :=
  let (next_char, st) := st.consume_next_input_char
  match next_char with
  | some 60 =>
      { st.push_comment_data [60] with state := .CommentLessThanSign }
  | some 45 => { st with state := .CommentEndDash }
  | some 0 =>
      (st.emit_parse_error "unexpected-null-character").push_comment_data
        [replacementChar]
  | some c => st.push_comment_data [c]
  | none =>
      let st := st.emit_parse_error "eof-in-comment"
      st.emit_current_comment_token.emit_token .EOF

/-- Source `handle_comment_less_than_sign_state`. -/
def handle_comment_less_than_sign_state (st : Tokenizer) : Tokenizer :=
  let (next_char, st) := st.consume_next_input_char
  match next_char with
  | some 33 =>
      { st.push_comment_data [33] with state := .CommentLessThanSignBang }
  | some 60 => st.push_comment_data [60]
  | _ =>
      ({ st with state := .Comment }).reconsume_char

/-- Source `handle_comment_less_than_sign_bang_state`. -/
def handle_comment_less_than_sign_bang_state (st : Tokenizer) : Tokenizer :=
  let (next_char, st) := st.consume_next_input_char
  match next_char with
  | some 45 => { st with state := .CommentLessThanSignBangDash }
  | _ =>
      ({ st with state := .Comment }).reconsume_char

/-- Source `handle_comment_less_than_sign_bang_dash_state`. -/
def handle_comment_less_than_sign_bang_dash_state (st : Tokenizer) :
    Tokenizer :=
  let (next_char, st) := st.consume_next_input_char
  match next_char with
  | some 45 => { st with state := .CommentLessThanSignBangDashDash }
  | _ =>
      ({ st with state := .CommentEndDash }).reconsume_char

/-- Source `handle_comment_less_than_sign_bang_dash_dash_state`: anything
other than `>` or EOF is the `nested-comment` parse error; all arms
reconsume into CommentEnd. -/
def handle_comment_less_than_sign_bang_dash_dash_state (st : Tokenizer) :
    Tokenizer :=
  let (next_char, st) := st.consume_next_input_char
  match next_char with
  | some 62 | none =>
      ({ st with state := .CommentEnd }).reconsume_char
  | some _ =>
      let st := st.emit_parse_error "nested-comment"
      ({ st with state := .CommentEnd }).reconsume_char

/-- Source `handle_comment_end_dash_state`. -/
def handle_comment_end_dash_state (st : Tokenizer) : Tokenizer :=
  let (next_char, st) := st.consume_next_input_char
  match next_char with
  | some 45 => { st with state := .CommentEnd }
  | some _ =>
      let st := st.push_comment_data [45]
      ({ st with state := .Comment }).reconsume_char
  | none =>
      let st := st.emit_parse_error "eof-in-comment"
      st.emit_current_comment_token.emit_token .EOF

/-- Source `handle_comment_end_state`. -/
def handle_comment_end_state (st : Tokenizer) : Tokenizer :=
  let (next_char, st) := st.consume_next_input_char
  match next_char with
  | some 62 =>
      ({ st with state := .Data }).emit_current_comment_token
  | some 33 => { st with state := .CommentEndBang }
  | some 45 => st.push_comment_data [45]
  | some _ =>
      let st := st.push_comment_data [45, 45]
      ({ st with state := .Comment }).reconsume_char
  | none =>
      let st := st.emit_parse_error "eof-in-comment"
      st.emit_current_comment_token.emit_token .EOF

/-- Source `handle_comment_end_bang_state` (`--!` is pushed as data). -/
def handle_comment_end_bang_state (st : Tokenizer) : Tokenizer :=
  let (next_char, st) := st.consume_next_input_char
  match next_char with
  | some 45 =>
      { st.push_comment_data [45, 45, 33] with state := .CommentEndDash }
  | some 62 =>
      let st := st.emit_parse_error "incorrectly-closed-comment"
      ({ st with state := .Data }).emit_current_comment_token
  | some _ =>
      let st := st.push_comment_data [45, 45, 33]
      ({ st with state := .Comment }).reconsume_char
  | none =>
      let st := st.emit_parse_error "eof-in-comment"
      st.emit_current_comment_token.emit_token .EOF

/-- Source `handle_doctype_state`. -/
def handle_doctype_state (st : Tokenizer) : Tokenizer :=
  let (next_char, st) := st.consume_next_input_char
  match next_char with
  | some 9 | some 10 | some 12 | some 32 =>
      { st with state := .BeforeDOCTYPEName }
  | some 62 =>
      ({ st with state := .BeforeDOCTYPEName }).reconsume_char
  | some _ =>
      let st := st.emit_parse_error "missing-whitespace-before-doctype-name"
      ({ st with state := .BeforeDOCTYPEName }).reconsume_char
  | none =>
      let st := st.emit_parse_error "eof-in-doctype"
      (st.emit_token (.DOCTYPE none none none true)).emit_token .EOF

/-- Source `handle_before_doctype_name_state`. -/
def handle_before_doctype_name_state (st : Tokenizer) : Tokenizer :=
  let (next_char, st) := st.consume_next_input_char
  match next_char with
  | some 9 | some 10 | some 12 | some 32 => st
  | some 0 =>
      let st := st.emit_parse_error "unexpected-null-character"
      { st with
        current_doctype_token :=
          some (.DOCTYPE (some [replacementChar]) none none false)
        state := .DOCTYPEName }
  | some 62 =>
      let st := st.emit_parse_error "missing-doctype-name"
      let st := { st with
        current_doctype_token := some (.DOCTYPE none none none true)
        state := .Data }
      st.emit_current_doctype_token
  | some c =>
      if isAsciiUpper c then
        { st with
          current_doctype_token :=
            some (.DOCTYPE (some [asciiLower c]) none none false)
          state := .DOCTYPEName }
      else
        { st with
          current_doctype_token := some (.DOCTYPE (some [c]) none none false)
          state := .DOCTYPEName }
  | none =>
      let st := st.emit_parse_error "eof-in-doctype"
      (st.emit_token (.DOCTYPE none none none true)).emit_token .EOF

/-- Source `handle_doctype_name_state`. -/
def handle_doctype_name_state (st : Tokenizer) : Tokenizer :=
  let (next_char, st) := st.consume_next_input_char
  match next_char with
  | some 9 | some 10 | some 12 | some 32 =>
      { st with state := .AfterDOCTYPEName }
  | some 62 =>
      ({ st with state := .Data }).emit_current_doctype_token
  | some 0 =>
      (st.emit_parse_error "unexpected-null-character").push_doctype_name
        replacementChar
  | some c =>
      if isAsciiUpper c then st.push_doctype_name (asciiLower c)
      else st.push_doctype_name c
  | none =>
      let st := st.emit_parse_error "eof-in-doctype"
      st.set_doctype_force_quirks.emit_current_doctype_token.emit_token .EOF

/-- Source `handle_after_doctype_name_state`: after a non-special char is
consumed, the `PUBLIC`/`SYSTEM` keywords are matched starting at the
following byte. -/
def handle_after_doctype_name_state (st : Tokenizer) : Tokenizer :=
  let (next_char, st) := st.consume_next_input_char
  match next_char with
  | some 9 | some 10 | some 12 | some 32 => st
  | some 62 =>
      ({ st with state := .Data }).emit_current_doctype_token
  | none =>
      let st := st.emit_parse_error "eof-in-doctype"
      st.set_doctype_force_quirks.emit_current_doctype_token.emit_token .EOF
  | some _ =>
      let (m, st) := st.consume_if_expected (strBytes "PUBLIC") true
      if m then
        { st with state := .AfterDOCTYPEPublicKeyword }
      else
        let (m, st) := st.consume_if_expected (strBytes "SYSTEM") true
        if m then
          { st with state := .AfterDOCTYPESystemKeyword }
        else
          let st := st.emit_parse_error
            "invalid-character-sequence-after-doctype-name"
          let st := st.set_doctype_force_quirks
          ({ st with state := .BogusDOCTYPE }).reconsume_char

/-- Source `handle_after_doctype_public_keyword_state`. -/
def handle_after_doctype_public_keyword_state (st : Tokenizer) : Tokenizer :=
  let (next_char, st) := st.consume_next_input_char
  match next_char with
  | some 9 | some 10 | some 12 | some 32 =>
      { st with state := .BeforeDOCTYPEPublicIdentifier }
  | some 34 =>
      let st := st.emit_parse_error
        "missing-whitespace-after-doctype-public-keyword"
      { st.set_doctype_public_id_empty with
        state := .DOCTYPEPublicIdentifierDoubleQuoted }
  | some 39 =>
      let st := st.emit_parse_error
        "missing-whitespace-after-doctype-public-keyword"
      { st.set_doctype_public_id_empty with
        state := .DOCTYPEPublicIdentifierSingleQuoted }
  | some 62 =>
      let st := st.emit_parse_error "missing-doctype-public-identifier"
      let st := st.set_doctype_force_quirks
      ({ st with state := .Data }).emit_current_doctype_token
  | none =>
      let st := st.emit_parse_error "eof-in-doctype"
      st.set_doctype_force_quirks.emit_current_doctype_token.emit_token .EOF
  | some _ =>
      let st := st.emit_parse_error
        "missing-quote-before-doctype-public-identifier"
      let st := st.set_doctype_force_quirks
      ({ st with state := .BogusDOCTYPE }).reconsume_char

/-- Source `handle_before_doctype_public_id_state`. -/
def handle_before_doctype_public_id_state (st : Tokenizer) : Tokenizer :=
  let (next_char, st) := st.consume_next_input_char
  match next_char with
  | some 9 | some 10 | some 12 | some 32 => st
  | some 34 =>
      { st.set_doctype_public_id_empty with
        state := .DOCTYPEPublicIdentifierDoubleQuoted }
  | some 39 =>
      { st.set_doctype_public_id_empty with
        state := .DOCTYPEPublicIdentifierSingleQuoted }
  | some 62 =>
      let st := st.emit_parse_error "missing-doctype-public-identifier"
      let st := st.set_doctype_force_quirks
      ({ st with state := .Data }).emit_current_doctype_token
  | none =>
      let st := st.emit_parse_error "eof-in-doctype"
      st.set_doctype_force_quirks.emit_current_doctype_token.emit_token .EOF
  | some _ =>
      let st := st.emit_parse_error
        "missing-quote-before-doctype-public-identifier"
      let st := st.set_doctype_force_quirks
      ({ st with state := .BogusDOCTYPE }).reconsume_char

/-- Source `handle_doctype_public_id_double_quoted_state` (the source's
catch-all arm pushes U+FFFD, not the consumed char). -/
def handle_doctype_public_id_double_quoted_state (st : Tokenizer) :
    Tokenizer :=
  let (next_char, st) := st.consume_next_input_char
  match next_char with
  | some 34 => { st with state := .AfterDOCTYPEPublicIdentifier }
  | some 0 =>
      (st.emit_parse_error "unexpected-null-character").push_doctype_public_id
        replacementChar
  | some 62 =>
      let st := st.emit_parse_error "abrupt-doctype-public-identifier"
      let st := st.set_doctype_force_quirks
      ({ st with state := .Data }).emit_current_doctype_token
  | none =>
      let st := st.emit_parse_error "eof-in-doctype"
      st.set_doctype_force_quirks.emit_current_doctype_token.emit_token .EOF
  | some _ => st.push_doctype_public_id replacementChar

/-- Source `handle_doctype_public_id_single_quoted_state` (same U+FFFD
catch-all as the double-quoted variant). -/
def handle_doctype_public_id_single_quoted_state (st : Tokenizer) :
    Tokenizer :=
  let (next_char, st) := st.consume_next_input_char
  match next_char with
  | some 39 => { st with state := .AfterDOCTYPEPublicIdentifier }
  | some 0 =>
      (st.emit_parse_error "unexpected-null-character").push_doctype_public_id
        replacementChar
  | some 62 =>
      let st := st.emit_parse_error "abrupt-doctype-public-identifier"
      let st := st.set_doctype_force_quirks
      ({ st with state := .Data }).emit_current_doctype_token
  | none =>
      let st := st.emit_parse_error "eof-in-doctype"
      st.set_doctype_force_quirks.emit_current_doctype_token.emit_token .EOF
  | some _ => st.push_doctype_public_id replacementChar

/-- Source `handle_after_doctype_public_id_state`. -/
def handle_after_doctype_public_id_state (st : Tokenizer) : Tokenizer :=
  let (next_char, st) := st.consume_next_input_char
  match next_char with
  | some 9 | some 10 | some 12 | some 32 =>
      { st with state := .BetweenDOCTYPEPublicAndSystemIdentifiers }
  | some 62 =>
      ({ st with state := .Data }).emit_current_doctype_token
  | some 34 =>
      let st := st.emit_parse_error
        "missing-whitespace-between-doctype-public-and-system-identifiers"
      { st.set_doctype_system_id_empty with
        state := .DOCTYPESystemIdentifierDoubleQuoted }
  | some 39 =>
      let st := st.emit_parse_error
        "missing-whitespace-between-doctype-public-and-system-identifiers"
      { st.set_doctype_system_id_empty with
        state := .DOCTYPESystemIdentifierSingleQuoted }
  | none =>
      let st := st.emit_parse_error "eof-in-doctype"
      st.set_doctype_force_quirks.emit_current_doctype_token.emit_token .EOF
  | some _ =>
      let st := st.emit_parse_error
        "missing-quote-before-doctype-system-identifier"
      let st := st.set_doctype_force_quirks
      ({ st with state := .BogusDOCTYPE }).reconsume_char

/-- Source `handle_between_doctype_public_and_system_identifiers_state`. -/
def handle_between_doctype_public_and_system_identifiers_state
    (st : Tokenizer) : Tokenizer :=
  let (next_char, st) := st.consume_next_input_char
  match next_char with
  | some 9 | some 10 | some 12 | some 32 => st
  | some 62 =>
      ({ st with state := .Data }).emit_current_doctype_token
  | some 34 =>
      { st.set_doctype_system_id_empty with
        state := .DOCTYPESystemIdentifierDoubleQuoted }
  | some 39 =>
      { st.set_doctype_system_id_empty with
        state := .DOCTYPESystemIdentifierSingleQuoted }
  | none =>
      let st := st.emit_parse_error "eof-in-doctype"
      st.set_doctype_force_quirks.emit_current_doctype_token.emit_token .EOF
  | some _ =>
      let st := st.emit_parse_error
        "missing-quote-before-doctype-system-identifier"
      let st := st.set_doctype_force_quirks
      ({ st with state := .BogusDOCTYPE }).reconsume_char

/-- Source `handle_after_doctype_system_keyword_state`. -/
def handle_after_doctype_system_keyword_state (st : Tokenizer) : Tokenizer :=
  let (next_char, st) := st.consume_next_input_char
  match next_char with
  | some 9 | some 10 | some 12 | some 32 =>
      { st with state := .BeforeDOCTYPESystemIdentifier }
  | some 34 =>
      let st := st.emit_parse_error
        "missing-whitespace-after-doctype-system-keyword"
      { st.set_doctype_system_id_empty with
        state := .DOCTYPESystemIdentifierDoubleQuoted }
  | some 39 =>
      let st := st.emit_parse_error
        "missing-whitespace-after-doctype-system-keyword"
      { st.set_doctype_system_id_empty with
        state := .DOCTYPESystemIdentifierSingleQuoted }
  | some 62 =>
      let st := st.emit_parse_error "missing-doctype-system-identifier"
      let st := st.set_doctype_force_quirks
      ({ st with state := .Data }).emit_current_doctype_token
  | none =>
      let st := st.emit_parse_error "eof-in-doctype"
      st.set_doctype_force_quirks.emit_current_doctype_token.emit_token .EOF
  | some _ =>
      let st := st.emit_parse_error
        "missing-quote-before-doctype-system-identifier"
      let st := st.set_doctype_force_quirks
      ({ st with state := .BogusDOCTYPE }).reconsume_char

/-- Source `handle_before_doctype_system_identifier_state`. -/
def handle_before_doctype_system_identifier_state (st : Tokenizer) :
    Tokenizer :=
  let (next_char, st) := st.consume_next_input_char
  match next_char with
  | some 9 | some 10 | some 12 | some 32 => st
  | some 34 =>
      { st.set_doctype_system_id_empty with
        state := .DOCTYPESystemIdentifierDoubleQuoted }
  | some 39 =>
      { st.set_doctype_system_id_empty with
        state := .DOCTYPESystemIdentifierSingleQuoted }
  | some 62 =>
      let st := st.emit_parse_error "missing-doctype-system-identifier"
      let st := st.set_doctype_force_quirks
      ({ st with state := .Data }).emit_current_doctype_token
  | none =>
      let st := st.emit_parse_error "eof-in-doctype"
      st.set_doctype_force_quirks.emit_current_doctype_token.emit_token .EOF
  | some _ =>
      let st := st.emit_parse_error
        "missing-quote-before-doctype-system-identifier"
      let st := st.set_doctype_force_quirks
      ({ st with state := .BogusDOCTYPE }).reconsume_char

/-- Source `handle_doctype_system_identifier_double_quoted_state` (here the
catch-all does push the consumed char). -/
def handle_doctype_system_identifier_double_quoted_state (st : Tokenizer) :
    Tokenizer :=
  let (next_char, st) := st.consume_next_input_char
  match next_char with
  | some 34 => { st with state := .AfterDOCTYPESystemIdentifier }
  | some 0 =>
      (st.emit_parse_error "unexpected-null-character").push_doctype_system_id
        replacementChar
  | some 62 =>
      let st := st.emit_parse_error "abrupt-doctype-system-identifier"
      let st := st.set_doctype_force_quirks
      ({ st with state := .Data }).emit_current_doctype_token
  | none =>
      let st := st.emit_parse_error "eof-in-doctype"
      st.set_doctype_force_quirks.emit_current_doctype_token.emit_token .EOF
  | some c => st.push_doctype_system_id c

/-- Source `handle_doctype_system_identifier_single_quoted_state`: empty in
the source (a state that neither consumes nor transitions). -/
def handle_doctype_system_identifier_single_quoted_state (st : Tokenizer) :
    Tokenizer := st

/-- Source `handle_after_doctype_system_identifier_state`: empty in the
source. -/
def handle_after_doctype_system_identifier_state (st : Tokenizer) :
    Tokenizer := st

/-- Source `handle_bogus_doctype_state`: empty in the source. -/
def handle_bogus_doctype_state (st : Tokenizer) : Tokenizer := st

/-- Source `handle_cdata_section_state`: empty in the source. -/
def handle_cdata_section_state (st : Tokenizer) : Tokenizer := st

/-- Source `handle_cdata_section_bracket_state`: empty in the source. -/
def handle_cdata_section_bracket_state (st : Tokenizer) : Tokenizer := st

/-- Source `handle_cdata_section_end_state`: empty in the source. -/
def handle_cdata_section_end_state (st : Tokenizer) : Tokenizer := st

/-- Source `handle_character_reference_state`: empty in the source. -/
def handle_character_reference_state (st : Tokenizer) : Tokenizer := st

/-- Source `handle_named_character_reference_state`: empty in the source. -/
def handle_named_character_reference_state (st : Tokenizer) : Tokenizer := st

/-- Source `handle_ambiguous_ampersand_state`: empty in the source. -/
def handle_ambiguous_ampersand_state (st : Tokenizer) : Tokenizer := st

/-- Source `handle_numeric_character_reference_state`: empty in the source. -/
def handle_numeric_character_reference_state (st : Tokenizer) : Tokenizer := st

/-- Source `handle_hexadecimal_character_reference_start_state`: empty in the
source. -/
def handle_hexadecimal_character_reference_start_state (st : Tokenizer) :
    Tokenizer := st

/-- Source `handle_decimal_character_reference_start_state`: empty in the
source. -/
def handle_decimal_character_reference_start_state (st : Tokenizer) :
    Tokenizer := st

/-- Source `handle_hexadecimal_character_reference_state`: empty in the
source. -/
def handle_hexadecimal_character_reference_state (st : Tokenizer) :
    Tokenizer := st

/-- Source `handle_decimal_character_reference_state`: empty in the source. -/
def handle_decimal_character_reference_state (st : Tokenizer) : Tokenizer := st

/-- Source `handle_numeric_character_reference_end_state`: empty in the
source. -/
def handle_numeric_character_reference_end_state (st : Tokenizer) :
    Tokenizer := st

/-- The body of the `while` loop of `Tokenizer::run`: dispatch on the
current state. -/
def step (st : Tokenizer) : Tokenizer :=
  match st.state with
  | .Data => st.handle_data_state
  | .RCDATA => st.handle_rcdata_state
  | .RAWTEXT => st.handle_rawtext_state
  | .ScriptData => st.handle_script_data_state
  | .PLAINTEXT => st.handle_plaintext_state
  | .TagOpen => st.handle_tag_open_state
  | .EndTagOpen => st.handle_end_tag_open_state
  | .TagName => st.handle_tag_name_state
  | .RCDATALessThanSign => st.handle_rcdata_less_than_sign_state
  | .RCDATAEndTagOpen => st.handle_rcdata_end_tag_open_state
  | .RCDATAEndTagName => st.handle_rcdata_end_tag_name_state
  | .RAWTEXTLessThanSign => st.handle_rawtext_less_than_sign_state
  | .RAWTEXTEndTagOpen => st.handle_rawtext_end_tag_open_state
  | .RAWTEXTEndTagName => st.handle_rawtext_end_tag_name_state
  | .ScriptDataLessThanSign => st.handle_script_data_less_than_sign_state
  | .ScriptDataEndTagOpen => st.handle_script_data_end_tag_open_state
  | .ScriptDataEndTagName => st.handle_script_data_end_tag_name_state
  | .ScriptDataEscapeStart => st.handle_script_data_escape_start_state
  | .ScriptDataEscapeStartDash => st.handle_script_data_escape_start_dash_state
  | .ScriptDataEscaped => st.handle_script_data_escaped_state
  | .ScriptDataEscapedDash => st.handle_script_data_escaped_dash_state
  | .ScriptDataEscapedDashDash => st.handle_script_data_escaped_dash_dash_state
  | .ScriptDataEscapedLessThanSign =>
      st.handle_script_data_escaped_less_than_sign_state
  | .ScriptDataEscapedEndTagOpen =>
      st.handle_script_data_escaped_end_tag_open_state
  | .ScriptDataEscapedEndTagName =>
      st.handle_script_data_escaped_end_tag_name_state
  | .ScriptDataDoubleEscapeStart =>
      st.handle_script_data_double_escape_start_state
  | .ScriptDataDoubleEscaped => st.handle_script_data_double_escaped_state
  | .ScriptDataDoubleEscapedDash =>
      st.handle_script_data_double_escaped_dash_state
  | .ScriptDataDoubleEscapedDashDash =>
      st.handle_script_data_double_escaped_dash_dash_state
  | .ScriptDataDoubleEscapedLessThanSign =>
      st.handle_script_data_double_escaped_less_than_sign_state
  | .ScriptDataDoubleEscapeEnd =>
      st.handle_script_data_double_escape_end_state
  | .BeforeAttributeName => st.handle_before_attribute_name_state
  | .AttributeName => st.handle_attribute_name_state
  | .AfterAttributeName => st.handle_after_attribute_name_state
  | .BeforeAttributeValue => st.handle_before_attribute_value_state
  | .AttributeValueDoubleQuoted =>
      st.handle_attribute_value_double_quoted_state
  | .AttributeValueSingleQuoted =>
      st.handle_attribute_value_single_quoted_state
  | .AttributeValueUnquoted => st.handle_attribute_value_unquoted_state
  | .AfterAttributeValueQuoted =>
      st.handle_after_attribute_value_quoted_state
  | .SelfClosingStartTag => st.handle_self_closing_start_tag_state
  | .BogusComment => st.handle_bogus_comment_state
  | .MarkupDeclarationOpen => st.handle_markup_declaration_open_state
  | .CommentStart => st.handle_comment_start_state
  | .CommentStartDash => st.handle_comment_start_dash_state
  | .Comment => st.handle_comment_state
  | .CommentLessThanSign => st.handle_comment_less_than_sign_state
  | .CommentLessThanSignBang => st.handle_comment_less_than_sign_bang_state
  | .CommentLessThanSignBangDash =>
      st.handle_comment_less_than_sign_bang_dash_state
  | .CommentLessThanSignBangDashDash =>
      st.handle_comment_less_than_sign_bang_dash_dash_state
  | .CommentEndDash => st.handle_comment_end_dash_state
  | .CommentEnd => st.handle_comment_end_state
  | .CommentEndBang => st.handle_comment_end_bang_state
  | .DOCTYPE => st.handle_doctype_state
  | .BeforeDOCTYPEName => st.handle_before_doctype_name_state
  | .DOCTYPEName => st.handle_doctype_name_state
  | .AfterDOCTYPEName => st.handle_after_doctype_name_state
  | .AfterDOCTYPEPublicKeyword =>
      st.handle_after_doctype_public_keyword_state
  | .BeforeDOCTYPEPublicIdentifier =>
      st.handle_before_doctype_public_id_state
  | .DOCTYPEPublicIdentifierDoubleQuoted =>
      st.handle_doctype_public_id_double_quoted_state
  | .DOCTYPEPublicIdentifierSingleQuoted =>
      st.handle_doctype_public_id_single_quoted_state
  | .AfterDOCTYPEPublicIdentifier => st.handle_after_doctype_public_id_state
  | .BetweenDOCTYPEPublicAndSystemIdentifiers =>
      st.handle_between_doctype_public_and_system_identifiers_state
  | .AfterDOCTYPESystemKeyword =>
      st.handle_after_doctype_system_keyword_state
  | .BeforeDOCTYPESystemIdentifier =>
      st.handle_before_doctype_system_identifier_state
  | .DOCTYPESystemIdentifierDoubleQuoted =>
      st.handle_doctype_system_identifier_double_quoted_state
  | .DOCTYPESystemIdentifierSingleQuoted =>
      st.handle_doctype_system_identifier_single_quoted_state
  | .AfterDOCTYPESystemIdentifier =>
      st.handle_after_doctype_system_identifier_state
  | .BogusDOCTYPE => st.handle_bogus_doctype_state
  | .CDATASection => st.handle_cdata_section_state
  | .CDATASectionBracket => st.handle_cdata_section_bracket_state
  | .CDATASectionEnd => st.handle_cdata_section_end_state
  | .CharacterReference => st.handle_character_reference_state
  | .NamedCharacterReference => st.handle_named_character_reference_state
  | .AmbiguousAmpersand => st.handle_ambiguous_ampersand_state
  | .NumericCharacterReference =>
      st.handle_numeric_character_reference_state
  | .HexadecimalCharacterReferenceStart =>
      st.handle_hexadecimal_character_reference_start_state
  | .DecimalCharacterReferenceStart =>
      st.handle_decimal_character_reference_start_state
  | .HexadecimalCharacterReference =>
      st.handle_hexadecimal_character_reference_state
  | .DecimalCharacterReference =>
      st.handle_decimal_character_reference_state
  | .NumericCharacterReferenceEnd =>
      st.handle_numeric_character_reference_end_state

/-- Source `Tokenizer::run`'s `while !self.input_stream.is_eof()` loop, with
explicit fuel for the unbounded iteration. -/
def runFuel : Nat → Tokenizer → Tokenizer
  | 0, st => st
  | fuel + 1, st =>
      if st.input_stream.is_eof then st else runFuel fuel (step st)

end Tokenizer

/-- Construct a tokenizer on `input` and run it with ample fuel
(`Tokenizer::new` followed by `Tokenizer::run`). -/
def run_tokenizer (input : List Nat) : Tokenizer :=
  Tokenizer.runFuel (8 * input.length + 8) (Tokenizer.new input)

/-- The observable outcome of `Tokenizer::run` on a complete byte
slice: the emitted token list and the side-band error strings, or
`none` if the run did not reach end of input within its fuel (i.e. the
source would loop). -/
def tokenize (input : List Nat) : Option (List Token × List String) :=
  let final := run_tokenizer input
  if final.input_stream.is_eof then some (final.tokens, final.errors)
  else none

/-! ## Entity table (`entities.rs`) -/

/-- Source `Entity` from `entities.rs`. -/
structure Entity where
  codepoints : List Nat
  characters : List Nat
  deriving DecidableEq, Repr

/-- Source `EntityMap = HashMap<String, Entity>`, modelled as an association
list of key/entity pairs. -/
abbrev EntityMap := List (List Nat × Entity)

/-- The observable outcome of running the loader: a successful map, a
structured `Err` value returned to the caller, or a panic (the process
aborts; no value is returned). -/
inductive LoadOutcome where
  | ok (m : EntityMap)
  | err (e : String)
  | panic (msg : String)
  deriving DecidableEq, Repr

/-- Source `k.trim_start_matches('&')`: drop every leading `&` from the key. -/
def trim_start_matches_amp (k : List Nat) : List Nat :=
  k.dropWhile (· == 38)

/-- Source `load_entities` from `entities.rs`, with the two library effects
abstracted as parameters: `read` is the result of
`fs::read_to_string(file_path)` and `parse` is
`serde_json::from_str`. The source calls `.unwrap()` on the read
result — a read failure panics instead of being returned — while a
parse failure propagates through `?` as a structured `Err`. On success
the keys are stripped of their leading `&`. -/
def load_entities (read : Except String (List Nat))
    (parse : List Nat → Except String EntityMap) : LoadOutcome :=
  match read with
  | .error _ => .panic "called unwrap on an Err value"
  | .ok file_content =>
      match parse file_content with
      | .error e => .err e
      | .ok entities =>
          .ok (entities.map (fun kv => (trim_start_matches_amp kv.1, kv.2)))

/-- The `ENTITIES` static initializer:
`load_entities("./src/dom/entities.json").expect("Failed to load entities.json")` —
an `Err` from the loader becomes a panic with the `expect` message, and
a panic inside the loader propagates. -/
def entities_init (read : Except String (List Nat))
    (parse : List Nat → Except String EntityMap) : LoadOutcome :=
  match load_entities read parse with
  | .ok m => .ok m
  | .err _ => .panic "Failed to load entities.json"
  | .panic msg => .panic msg

/-- Concrete tokenizer state used as witness input: in the TagName
state, holding a built `StartTag p` token, with `>` as the current
byte. -/
def sampleTagNameState : Tokenizer :=
  { Tokenizer.new (strBytes ">") with
    state := .TagName
    current_tag_token := some (.StartTag (strBytes "p") false []) }

/-! ## Supporting lemmas -/

/-- Source `emit_token` only touches the output list and the last-start-tag
slot: the current tag token and the attribute scratch are unchanged. -/
theorem emit_token_preserves_tag_fields (st : Tokenizer) (t : Token) :
    (st.emit_token t).current_tag_token = st.current_tag_token ∧
    (st.emit_token t).current_tag_name = st.current_tag_name ∧
    (st.emit_token t).current_tag_value = st.current_tag_value := by
  unfold Tokenizer.emit_token
  split <;> exact ⟨rfl, rfl, rfl⟩

/-- In the TagName state with `>` as the current byte, the emission
clones the current tag token: the slot and the attribute scratch are
left unchanged. -/
theorem handle_tag_name_gt (st : Tokenizer)
    (h : st.input_stream.current_cpy = some 62) :
    (st.handle_tag_name_state).current_tag_token = st.current_tag_token ∧
    (st.handle_tag_name_state).current_tag_name = st.current_tag_name ∧
    (st.handle_tag_name_state).current_tag_value = st.current_tag_value := by
  unfold Tokenizer.handle_tag_name_state Tokenizer.consume_next_input_char
  simp only [h]
  cases hct : st.current_tag_token with
  | none => exact ⟨rfl, rfl, rfl⟩
  | some t => exact emit_token_preserves_tag_fields _ t

/-- If an `if` whose then-branch is known to be a `some` evaluates to
`none`, the condition failed and the else-branch is `none`. Used to
peel the dispatch chain of the selector. -/
theorem ite_none_of_isSome {α : Type} (c : Prop) [Decidable c]
    (a b : Option α) (h : (if c then a else b) = none)
    (ha : a.isSome = true) : ¬c ∧ b = none := by
  by_cases hc : c
  · rw [if_pos hc] at h
    rw [h] at ha
    cases ha
  · rw [if_neg hc] at h
    exact ⟨hc, h⟩

/-- The walk of the insertion-mode selector can only run out of fuel
(yield `none`) when the fuel does not exceed the starting index: every
dispatch case returns, and each fall-through decreases the index. -/
theorem resetLoop_none_le (stack : List Node) (ctx : Option Node)
    (frag : Bool) :
    ∀ fuel i, resetLoop stack ctx frag fuel i = none → fuel ≤ i := by
  intro fuel
  induction fuel with
  | zero => intro i _; omega
  | succ fuel ih =>
    intro i h
    simp only [resetLoop] at h
    rcases hnode : (if i = 0 ∧ frag = true then ctx else stack.get? i)
      with _ | n
    · rw [hnode] at h
      simp only [] at h
      obtain ⟨hne, h⟩ := ite_none_of_isSome _ _ _ h rfl
      have := ih _ h
      omega
    · rw [hnode] at h
      simp only [] at h
      obtain ⟨-, h⟩ := ite_none_of_isSome _ _ _ h
        (by by_cases h0 : i = 0 <;> simp [h0])
      obtain ⟨-, h⟩ := ite_none_of_isSome _ _ _ h rfl
      obtain ⟨-, h⟩ := ite_none_of_isSome _ _ _ h rfl
      obtain ⟨-, h⟩ := ite_none_of_isSome _ _ _ h rfl
      obtain ⟨-, h⟩ := ite_none_of_isSome _ _ _ h rfl
      obtain ⟨-, h⟩ := ite_none_of_isSome _ _ _ h rfl
      obtain ⟨-, h⟩ := ite_none_of_isSome _ _ _ h rfl
      obtain ⟨-, h⟩ := ite_none_of_isSome _ _ _ h rfl
      obtain ⟨-, h⟩ := ite_none_of_isSome _ _ _ h rfl
      obtain ⟨-, h⟩ := ite_none_of_isSome _ _ _ h rfl
      obtain ⟨-, h⟩ := ite_none_of_isSome _ _ _ h rfl
      obtain ⟨-, h⟩ := ite_none_of_isSome _ _ _ h
        (by by_cases hf : frag = true ∧ n.has_no_head = true <;> simp [hf])
      obtain ⟨hne, h⟩ := ite_none_of_isSome _ _ _ h rfl
      have := ih _ h
      omega

/-- The walk of the insertion-mode selector returns a mode whenever its
fuel exceeds the index it starts from. -/
theorem resetLoop_isSome (stack : List Node) (ctx : Option Node)
    (frag : Bool) (fuel i : Nat) (hi : i < fuel) :
    (resetLoop stack ctx frag fuel i).isSome = true := by
  cases hr : resetLoop stack ctx frag fuel i with
  | none =>
      have := resetLoop_none_le stack ctx frag fuel i hr
      omega
  | some m => rfl

/-- When no node of the stack (nor the substituted context element)
satisfies any dispatch predicate, the walk falls through every case and
ends in `InBody`. -/
theorem resetLoop_plain (stack : List Node) (ctx : Option Node) (frag : Bool)
    (hs : stack.all plainNode = true) (hc : optPlain ctx = true) :
    ∀ fuel i, i < fuel →
      resetLoop stack ctx frag fuel i = some .InBody := by
  intro fuel
  induction fuel with
  | zero => intro i hi; omega
  | succ fuel ih =>
    intro i hi
    have hplain : ∀ m, (if i = 0 ∧ frag then ctx else stack.get? i) = some m →
        plainNode m = true := by
      intro m hm
      split at hm
      · cases ctx with
        | none => cases hm
        | some c => cases hm; simpa [optPlain] using hc
      · have hmem : m ∈ stack := List.get?_mem hm
        exact List.all_eq_true.mp hs m hmem
    simp only [resetLoop]
    cases hnode : (if i = 0 ∧ frag then ctx else stack.get? i) with
    | none =>
        by_cases h0 : i = 0
        · simp [h0]
        · simp [h0]
          exact ih (i - 1) (by omega)
    | some m =>
        have hm := hplain m hnode
        simp only [plainNode, Bool.and_eq_true, Bool.not_eq_true'] at hm
        obtain ⟨⟨⟨⟨⟨⟨⟨⟨⟨⟨⟨⟨h1, h2⟩, h3⟩, h4⟩, h5⟩, h6⟩, h7⟩, h8⟩, h9⟩, h10⟩,
          h11⟩, h12⟩, h13⟩ := hm
        by_cases h0 : i = 0
        · simp [h1, h2, h3, h4, h5, h6, h7, h8, h9, h10, h11, h12, h13, h0]
        · simp [h1, h2, h3, h4, h5, h6, h7, h8, h9, h10, h11, h12, h13, h0]
          exact ih (i - 1) (by omega)

/-! ## Claim theorems -/

/-- Claim C1: the spec says every run of the tokenizer ends the token
list with exactly one EndOfFile. The code's `run` loop is guarded by
`!is_eof`, so the `None` arms that emit `Token::EOF` are unreachable:
tokenizing `"a"` terminates with output `[Character 'a']` and no EOF
token at all. -/
theorem claim_C1_run_emits_no_EndOfFile :
    tokenize (strBytes "a") = some ([Token.Character 97], []) := by rfl

/-- Claim C2: the spec says `<x a="1" a="2">` yields
`StartTag{x, attrs=[("a","1")]}` with a `duplicate-attribute` parse
error. The code never commits a quoted attribute value to the tag
token (only `handle_after_attribute_name_state` calls
`add_attribute_to_current_tag_token`), so both attributes are lost and
no parse error is reported. -/
theorem claim_C2_duplicate_attribute_scenario :
    tokenize (strBytes "<x a=\"1\" a=\"2\">") =
      some ([Token.StartTag (strBytes "x") false []], []) := by rfl

/-- Claim C3: the spec says tag names of start and end tags alike are
accumulated (lowercased) from the input. `handle_tag_name_state`
pattern-matches only `Token::StartTag` when pushing name characters,
so an end tag tokenized through the TagName state keeps an empty name:
`</DIV>` yields `EndTag` with name `""`, not `"div"`. -/
theorem claim_C3_end_tag_name_dropped :
    tokenize (strBytes "</DIV>") =
      some ([Token.EndTag [] false []], []) := by rfl

/-- Claim C4: the spec says `<br />` yields
`StartTag{br, self_closing=true, attrs=[]}` before the trailing
EndOfFile. The code's AfterAttributeName `/` arm unconditionally
commits the (empty) attribute scratch, so the emitted token carries the
bogus attribute `("","")`, and no EndOfFile follows. -/
theorem claim_C4_br_self_closing_scenario :
    tokenize (strBytes "<br />") =
      some ([Token.StartTag (strBytes "br") true [([], [])]], []) := by rfl

/-- Claim C5: tokenizing `<!--a<!--b-->` emits exactly one Comment
token with data `a<!--b`, together with a `nested-comment` parse
error. -/
theorem claim_C5_nested_comment :
    tokenize (strBytes "<!--a<!--b-->") =
      some ([Token.Comment (strBytes "a<!--b")], ["nested-comment"]) := by rfl

/-- Claim C6 counterexample: the spec says every tag emission leaves
the current-tag-token slot empty. Tokenizing `<p>` emits the tag from
the TagName state, which clones the token without clearing the slot:
after the (finished) run the slot still holds the StartTag. -/
theorem claim_C6_counterexample :
    (run_tokenizer (strBytes "<p>")).input_stream.is_eof = true ∧
    (run_tokenizer (strBytes "<p>")).tokens =
      [Token.StartTag (strBytes "p") false []] ∧
    (run_tokenizer (strBytes "<p>")).current_tag_token =
      some (Token.StartTag (strBytes "p") false []) := by
  exact ⟨rfl, rfl, rfl⟩

/-- Claim C6 amended: emissions routed through
`emit_current_tag_token` do empty the slot but leave the attribute
scratch fields untouched, while the tag emission performed directly in
the tag-name state (on `>`) leaves the slot and the scratch unchanged. -/
theorem claim_C6_amended (st : Tokenizer) :
    (st.emit_current_tag_token.current_tag_token = none ∧
     st.emit_current_tag_token.current_tag_name = st.current_tag_name ∧
     st.emit_current_tag_token.current_tag_value = st.current_tag_value) ∧
    (st.state = .TagName → st.input_stream.current_cpy = some 62 →
      (Tokenizer.step st).current_tag_token = st.current_tag_token ∧
      (Tokenizer.step st).current_tag_name = st.current_tag_name ∧
      (Tokenizer.step st).current_tag_value = st.current_tag_value) := by
  constructor
  · unfold Tokenizer.emit_current_tag_token
    split
    · rename_i t ht
      obtain ⟨ha, hb, hc⟩ :=
        emit_token_preserves_tag_fields { st with current_tag_token := none } t
      exact ⟨ha, hb, hc⟩
    · rename_i hn
      exact ⟨hn, rfl, rfl⟩
  · intro h1 h2
    have hstep : Tokenizer.step st = Tokenizer.handle_tag_name_state st := by
      unfold Tokenizer.step
      rw [h1]
    rw [hstep]
    exact handle_tag_name_gt st h2

/-- Claim C6 witness: the amended theorem applied to a concrete
TagName-state tokenizer about to read `>`. -/
theorem claim_C6_witness :
    sampleTagNameState.state = .TagName ∧
    sampleTagNameState.input_stream.current_cpy = some 62 ∧
    ((Tokenizer.step sampleTagNameState).current_tag_token =
        sampleTagNameState.current_tag_token ∧
     (Tokenizer.step sampleTagNameState).current_tag_name =
        sampleTagNameState.current_tag_name ∧
     (Tokenizer.step sampleTagNameState).current_tag_value =
        sampleTagNameState.current_tag_value) :=
  ⟨rfl, rfl, (claim_C6_amended sampleTagNameState).2 rfl rfl⟩

/-- Claim C7: the spec says a non-last `td` or `th` node makes the
selector return InCell. The code tests `is_td() && is_th()`
(conjunction instead of disjunction), so a plain `td` node falls
through; on the stack `[html, td]` the walk descends to `html` and
returns AfterHead. -/
theorem claim_C7_td_not_in_cell :
    reset_insertion_mode [{ is_html := true }, { is_td := true }] none false
      = some .AfterHead := by rfl

/-- Claim C8: the insertion-mode selector is total: on every non-empty
stack, any context element and either fragment flag it terminates with
some mode, and when no dispatch case matches any examined node the
result is the InBody fallback. -/
theorem claim_C8_reset_total (stack : List Node) (ctx : Option Node)
    (frag : Bool) (_h : stack ≠ []) :
    (∃ m, reset_insertion_mode stack ctx frag = some m) ∧
    (stack.all plainNode = true → optPlain ctx = true →
      reset_insertion_mode stack ctx frag = some .InBody) := by
  constructor
  · exact Option.isSome_iff_exists.mp
      (resetLoop_isSome stack ctx frag (stack.length + 1)
        (stack.length - 1) (by omega))
  · intro hs hc
    exact resetLoop_plain stack ctx frag hs hc _ _ (by omega)

/-- Claim C8 witness: the totality theorem applied to the singleton
stack `[html]`. -/
theorem claim_C8_witness :
    (([({ is_html := true } : Node)] : List Node) ≠ []) ∧
    ((∃ m, reset_insertion_mode [({ is_html := true } : Node)] none false
        = some m) ∧
     (([({ is_html := true } : Node)] : List Node).all plainNode = true →
       optPlain none = true →
       reset_insertion_mode [({ is_html := true } : Node)] none false
         = some .InBody)) :=
  ⟨by decide,
   claim_C8_reset_total [({ is_html := true } : Node)] none false (by decide)⟩

/-- Claim C9 counterexample: the spec says a missing packaged entity
file terminates construction with a structured error. A read failure
hits the source's `.unwrap()` and panics instead of producing an error
value. -/
theorem claim_C9_counterexample :
    load_entities (Except.error "No such file or directory")
        (fun _ => Except.ok []) =
      LoadOutcome.panic "called unwrap on an Err value" := by rfl

/-- Claim C9 amended: a malformed file makes `load_entities` return the
structured parse error, which the `ENTITIES` initializer's `expect`
converts into a panic; a missing file panics directly inside
`load_entities` via `unwrap`. No structured error value reaches the
caller of `ENTITIES`. -/
theorem claim_C9_amended (e : String) (content : List Nat)
    (parse : List Nat → Except String EntityMap) (pe : String)
    (hp : parse content = Except.error pe) :
    load_entities (Except.error e) parse =
      LoadOutcome.panic "called unwrap on an Err value" ∧
    load_entities (Except.ok content) parse = LoadOutcome.err pe ∧
    entities_init (Except.ok content) parse =
      LoadOutcome.panic "Failed to load entities.json" ∧
    entities_init (Except.error e) parse =
      LoadOutcome.panic "called unwrap on an Err value" := by
  refine ⟨rfl, ?_, ?_, rfl⟩ <;> simp [load_entities, entities_init, hp]

/-- Claim C9 witness: the amended theorem at a concrete failing read
and a concrete failing parse. -/
theorem claim_C9_witness :
    ((fun _ => (Except.error "expected value" :
        Except String EntityMap)) ([] : List Nat) =
      Except.error "expected value") ∧
    (load_entities (Except.error "enoent")
        (fun _ => (Except.error "expected value" :
          Except String EntityMap)) =
      LoadOutcome.panic "called unwrap on an Err value" ∧
     load_entities (Except.ok [])
        (fun _ => (Except.error "expected value" :
          Except String EntityMap)) =
      LoadOutcome.err "expected value" ∧
     entities_init (Except.ok [])
        (fun _ => (Except.error "expected value" :
          Except String EntityMap)) =
      LoadOutcome.panic "Failed to load entities.json" ∧
     entities_init (Except.error "enoent")
        (fun _ => (Except.error "expected value" :
          Except String EntityMap)) =
      LoadOutcome.panic "called unwrap on an Err value") :=
  ⟨rfl, claim_C9_amended "enoent" []
    (fun _ => Except.error "expected value") "expected value" rfl⟩

/-- Claim C10: `Token::add_attribute` and
`Token::set_self_closing_flag` leave every non-tag token (DOCTYPE,
Comment, Character, EOF) completely unchanged. -/
theorem claim_C10_non_tag_tokens_unchanged (t : Token)
    (name value : List Nat) (flag : Bool) (h : t.isTag = false) :
    t.add_attribute name value = t ∧ t.set_self_closing_flag flag = t := by
  cases t <;> simp_all [Token.isTag, Token.add_attribute,
    Token.set_self_closing_flag]

/-- Claim C10 witness: the theorem applied to a concrete Comment
token. -/
theorem claim_C10_witness :
    (Token.Comment (strBytes "c")).isTag = false ∧
    ((Token.Comment (strBytes "c")).add_attribute (strBytes "a")
        (strBytes "b") = Token.Comment (strBytes "c") ∧
     (Token.Comment (strBytes "c")).set_self_closing_flag true =
       Token.Comment (strBytes "c")) :=
  ⟨by decide,
   claim_C10_non_tag_tokens_unchanged (Token.Comment (strBytes "c"))
     (strBytes "a") (strBytes "b") true (by decide)⟩

end BroosterWebParser
